import Mathlib

/-!
# AF_PACKET uplink driver and agent configuration loading

A shallow embedding of

* `vpp-manager/uplink/af_packet.go` (the `AFPacketDriver` methods
  `PreconfigureLinux`, `RestoreLinux`, `CreateMainVppInterface`), and
* `calico-vpp-agent/config/config.go` (`LoadConfig`).

Go errors are modelled by their message: `Option String`, `none` being `nil`.
Calls that leave the driver (netlink, the namespace mover, the VPP client) are
recorded in a trace and their outcomes are supplied by an environment, so the
theorems hold for every behaviour of those collaborators.
-/

namespace Uplink

/-! ## Data model -/

/-- The constant `config.DataInterfaceSwIfIndex = uint32(1)` (config.go line 31). -/
def DataInterfaceSwIfIndex : Nat := 1

/-- The fields of `config.InterfaceSpec` the AF_PACKET driver reads or writes. -/
structure InterfaceSpec where
  InterfaceName : String
  IsMain : Bool
  SwIfIndex : Nat
  deriving DecidableEq, Repr

/-- The fields of `config.LinuxInterfaceState` that `RestoreLinux` reads itself. The address
and route lists are only consumed inside `restoreLinuxIfConf`. -/
structure LinuxInterfaceState where
  IsUp : Bool
  PromiscOn : Bool
  deriving DecidableEq, Repr

/-- The driver `AFPacketDriver` (its embedded `UplinkDriverData`): `spec` and `conf`. -/
structure AFPacketDriver where
  spec : InterfaceSpec
  conf : LinuxInterfaceState
  deriving DecidableEq, Repr

/-- A `netlink.Link` handle: the kernel interface it designates. -/
structure Link where
  Name : String
  deriving DecidableEq, Repr

/-- Every call that leaves the driver, with its arguments. -/
inductive Call where
  | LinkByName (name : String)
  | SetPromiscOn (link : Link)
  | SetPromiscOff (link : Link)
  | SafeSetInterfaceUpByName (name : String)
  | moveInterfaceToNS (name : String) (pid : Int)
  | moveInterfaceFromNS (name : String)
  | restoreLinuxIfConf (link : Link)
  | CreateAfPacket
  | TagMainInterface (swIfIndex : Nat) (name : String)
  deriving DecidableEq, Repr

/-- A logrus record: level and formatted message. -/
inductive LogEntry where
  | Infof (msg : String)
  | Warnf (msg : String)
  | Errorf (msg : String)
  deriving DecidableEq, Repr

/-- Administrative state and promiscuity flag of one kernel interface. -/
structure LinkFlags where
  up : Bool
  promisc : Bool
  deriving DecidableEq, Repr

/-- Outcomes of the collaborators, one per operation and argument: `none` is success, `some e`
is the error with message `e`. `CreateAfPacket` returns the interface index on success. -/
structure Env where
  LinkByName : String → Option String
  SetPromiscOn : Link → Option String
  SetPromiscOff : Link → Option String
  SafeSetInterfaceUpByName : String → Option String
  moveInterfaceToNS : String → Int → Option String
  moveInterfaceFromNS : String → Option String
  CreateAfPacket : Except String Nat
  TagMainInterface : Nat → String → Option String

/-- The observable world: flags of every kernel interface, the calls made so far and the
diagnostics logged so far (both oldest first). -/
structure World where
  kernel : String → LinkFlags
  calls : List Call
  logs : List LogEntry

/-- Record a call in the trace. -/
def World.call (w : World) (c : Call) : World :=
  { w with calls := w.calls ++ [c] }

/-- Record a diagnostic. -/
def World.log (w : World) (l : LogEntry) : World :=
  { w with logs := w.logs ++ [l] }

/-- Modelled from the spec: the kernel effect of a successful `netlink.SetPromiscOn` /
`netlink.SetPromiscOff` (netlink is not part of the sources): the promiscuity flag of the
designated interface takes the given value, nothing else changes. -/
def World.setPromisc (w : World) (link : Link) (v : Bool) : World :=
  { w with kernel := fun n => if n = link.Name then { w.kernel n with promisc := v } else w.kernel n }

/-- Modelled from the spec: the kernel effect of a successful `utils.SafeSetInterfaceUpByName`
(not part of the sources), "bring the interface administratively up": the interface of that
name becomes up, nothing else changes. -/
def World.setUp (w : World) (name : String) : World :=
  { w with kernel := fun n => if n = name then { w.kernel n with up := true } else w.kernel n }

/-- Number of `TagMainInterface` calls in a trace. -/
def tagCalls : List Call → Nat
  | [] => 0
  | Call.TagMainInterface _ _ :: cs => tagCalls cs + 1
  | _ :: cs => tagCalls cs

/-- Number of calls in a trace that mutate kernel link flags (`SetPromiscOn`, `SetPromiscOff`,
`SafeSetInterfaceUpByName`). -/
def flagMutations : List Call → Nat
  | [] => 0
  | Call.SetPromiscOn _ :: cs => flagMutations cs + 1
  | Call.SetPromiscOff _ :: cs => flagMutations cs + 1
  | Call.SafeSetInterfaceUpByName _ :: cs => flagMutations cs + 1
  | _ :: cs => flagMutations cs

/-- The predicate "the message `msg` contains the text `s`". -/
def Mentions (msg s : String) : Prop :=
  ∃ pre post : String, msg = pre ++ s ++ post

/-! ## `AFPacketDriver.PreconfigureLinux` (af_packet.go lines 38-48) -/

/-- The result of a method that returns an `error`: the world afterwards and the error. -/
structure Outcome where
  w : World
  err : Option String

/-- The message of `errors.Wrapf(err, format, args...)` and of `errors.Wrap(err, message)`:
the formatted text, `": "`, and the message of the cause. -/
def Wrapf (cause : String) (formatted : String) : String :=
  formatted ++ ": " ++ cause

/-- `func (d *AFPacketDriver) PreconfigureLinux() error`. -/
def PreconfigureLinux (d : AFPacketDriver) (env : Env) (w : World) : Outcome :=
  let w := w.call (Call.LinkByName d.spec.InterfaceName)
  match env.LinkByName d.spec.InterfaceName with
  | some err => ⟨w, some (Wrapf err ("Error finding link " ++ d.spec.InterfaceName))⟩
  | none =>
    let link : Link := ⟨d.spec.InterfaceName⟩
    let w := w.call (Call.SetPromiscOn link)
    match env.SetPromiscOn link with
    | some err => ⟨w, some (Wrapf err ("Error set link " ++ d.spec.InterfaceName ++ " promisc on"))⟩
    | none => ⟨w.setPromisc link true, none⟩

/-! ## `AFPacketDriver.RestoreLinux` (af_packet.go lines 50-78) -/

/-- Lines 51-56 of `RestoreLinux`: the namespace move-back, skipped when
`allInterfacesPhysical`; its failure is logged and execution continues. -/
def restoreNamespace (d : AFPacketDriver) (env : Env) (allInterfacesPhysical : Bool)
    (w : World) : World :=
  if !allInterfacesPhysical then
    let w := w.call (Call.moveInterfaceFromNS d.spec.InterfaceName)
    match env.moveInterfaceFromNS d.spec.InterfaceName with
    | some err => w.log (LogEntry.Warnf ("Moving uplink back from NS failed " ++ err))
    | none => w
  else w

/-- `func (d *AFPacketDriver) RestoreLinux(allInterfacesPhysical bool)`. It has no result:
the world afterwards is all there is to observe. -/
def RestoreLinux (d : AFPacketDriver) (env : Env) (allInterfacesPhysical : Bool)
    (w : World) : World :=
  let w := restoreNamespace d env allInterfacesPhysical w
  if !d.conf.IsUp then w
  else
    let w := w.call (Call.SafeSetInterfaceUpByName d.spec.InterfaceName)
    match env.SafeSetInterfaceUpByName d.spec.InterfaceName with
    | some err =>
      w.log (LogEntry.Warnf ("Error setting " ++ d.spec.InterfaceName ++ " up: " ++ err))
    | none =>
      let link : Link := ⟨d.spec.InterfaceName⟩
      let w := w.setUp d.spec.InterfaceName
      let w :=
        if !d.conf.PromiscOn then
          let w := w.log (LogEntry.Infof "Setting promisc off")
          let w := w.call (Call.SetPromiscOff link)
          match env.SetPromiscOff link with
          | some err =>
            w.log (LogEntry.Errorf
              ("Error setting link " ++ d.spec.InterfaceName ++ " promisc off " ++ err))
          | none => w.setPromisc link false
        else w
      w.call (Call.restoreLinuxIfConf link)

/-! ## `AFPacketDriver.CreateMainVppInterface` (af_packet.go lines 80-104) -/

/-- The result of `CreateMainVppInterface`: the driver afterwards (its `spec.SwIfIndex` may
have been assigned), the world afterwards and the returned error. -/
structure CreateOutcome where
  d : AFPacketDriver
  w : World
  err : Option String

/-- `func (d *AFPacketDriver) CreateMainVppInterface(vpp *vpplink.VppLink, vppPid int) error`. -/
def CreateMainVppInterface (d : AFPacketDriver) (env : Env) (vppPid : Int)
    (w : World) : CreateOutcome :=
  let w := w.call (Call.moveInterfaceToNS d.spec.InterfaceName vppPid)
  match env.moveInterfaceToNS d.spec.InterfaceName vppPid with
  | some err => ⟨d, w, some (Wrapf err "Moving uplink in NS failed")⟩
  | none =>
    let w := w.call Call.CreateAfPacket
    match env.CreateAfPacket with
    | Except.error err => ⟨d, w, some (Wrapf err "Error creating AF_PACKET interface")⟩
    | Except.ok swIfIndex =>
      let w := w.log (LogEntry.Infof ("Created AF_PACKET interface " ++ toString swIfIndex))
      if d.spec.IsMain && swIfIndex != DataInterfaceSwIfIndex then
        ⟨d, w, some ("Created AF_PACKET interface has wrong swIfIndex " ++ toString swIfIndex ++ "!")⟩
      else
        let d : AFPacketDriver := { d with spec := { d.spec with SwIfIndex := swIfIndex } }
        let w := w.call (Call.TagMainInterface swIfIndex d.spec.InterfaceName)
        match env.TagMainInterface swIfIndex d.spec.InterfaceName with
        | some err => ⟨d, w, some err⟩
        | none => ⟨d, w, none⟩

/-! ## Concrete inputs -/

/-- An environment in which every collaborator succeeds and `CreateAfPacket` returns `i`. -/
def envOk (i : Nat) : Env where
  LinkByName := fun _ => none
  SetPromiscOn := fun _ => none
  SetPromiscOff := fun _ => none
  SafeSetInterfaceUpByName := fun _ => none
  moveInterfaceToNS := fun _ _ => none
  moveInterfaceFromNS := fun _ => none
  CreateAfPacket := Except.ok i
  TagMainInterface := fun _ _ => none

/-- A world whose interfaces all carry the flags `f`, with empty trace and log. -/
def worldOf (f : LinkFlags) : World := ⟨fun _ => f, [], []⟩

/-- The driver of interface `eth0` with the given role and snapshot. -/
def eth0 (isMain isUp promiscOn : Bool) : AFPacketDriver :=
  ⟨⟨"eth0", isMain, 0⟩, ⟨isUp, promiscOn⟩⟩

/-- An environment like `envOk 1` in which bringing the interface up fails with `e`. -/
def envUpFails (e : String) : Env :=
  { envOk 1 with SafeSetInterfaceUpByName := fun _ => some e }

/-- An environment like `envOk i` in which tagging fails with `e`. -/
def envTagFails (i : Nat) (e : String) : Env :=
  { envOk i with TagMainInterface := fun _ _ => some e }

/-- An environment like `envOk 1` in which the link lookup fails with `e`. -/
def envLookupFails (e : String) : Env :=
  { envOk 1 with LinkByName := fun _ => some e }

end Uplink

/-! ## `calico-vpp-agent/config/config.go` -/

namespace Config

/-! ### The Go library functions `LoadConfig` calls -/

/-- The error kinds of `strconv.NumError`: `strconv.ErrSyntax` and `strconv.ErrRange`. -/
inductive NumError where
  | ErrSyntax
  | ErrRange
  deriving DecidableEq, Repr

/-- The loop of `strconv.ParseUint(s, 10, bitSize)` over the characters of `s`, `n` being the
value accumulated so far: a character that is not a decimal digit is a syntax error, a value
beyond `maxVal = 2^bitSize - 1` (or beyond `uint64`) is a range error with value `maxVal`. -/
def parseUintLoop (maxVal : Nat) : List Char → Nat → Nat × Option NumError
  | [], n => (n, none)
  | c :: cs, n =>
    if '0' ≤ c ∧ c ≤ '9' then
      let dgt := c.toNat - '0'.toNat
      if n ≥ (2 ^ 64 - 1) / 10 + 1 then (maxVal, some NumError.ErrRange)
      else
        let n1 := (n * 10 + dgt) % 2 ^ 64
        if n1 < n * 10 ∨ n1 > maxVal then (maxVal, some NumError.ErrRange)
        else parseUintLoop maxVal cs n1
    else (0, some NumError.ErrSyntax)

/-- Go `strconv.ParseUint(s, 10, bitSize)`. -/
def ParseUint (s : List Char) (bitSize : Nat) : Nat × Option NumError :=
  if s = [] then (0, some NumError.ErrSyntax)
  else parseUintLoop (2 ^ bitSize - 1) s 0

/-- Go `strconv.ParseInt(s, 10, bitSize)`: the value and the error (`none` is nil). An optional
sign, then `ParseUint`; a magnitude that does not fit `bitSize` signed bits is a range error
and the value is clamped. -/
def ParseInt (s : String) (bitSize : Nat) : Int × Option NumError :=
  match s.data with
  | [] => (0, some NumError.ErrSyntax)
  | c :: cs =>
    let neg : Bool := c = '-'
    let body := if c = '+' ∨ c = '-' then cs else c :: cs
    let un := ParseUint body bitSize
    if un.2 = some NumError.ErrSyntax then (0, some NumError.ErrSyntax)
    else
      let cutoff : Nat := 2 ^ (bitSize - 1)
      if !neg && un.1 ≥ cutoff then ((cutoff : Int) - 1, some NumError.ErrRange)
      else if neg && un.1 > cutoff then (-(cutoff : Int), some NumError.ErrRange)
      else (if neg then -(un.1 : Int) else (un.1 : Int), none)

/-- Go `strconv.ParseBool`: `none` is the syntax error. -/
def ParseBool (str : String) : Option Bool :=
  if str = "1" ∨ str = "t" ∨ str = "T" ∨ str = "true" ∨ str = "TRUE" ∨ str = "True" then
    some true
  else if str = "0" ∨ str = "f" ∨ str = "F" ∨ str = "false" ∨ str = "FALSE" ∨ str = "False" then
    some false
  else none

/-- Go `strings.Split(s, ",")` (any one-character separator) on the characters of `s`: the
pieces between separators; the empty string yields one empty piece. -/
def splitChars (sep : Char) : List Char → List (List Char)
  | [] => [[]]
  | c :: cs =>
    if c = sep then [] :: splitChars sep cs
    else
      match splitChars sep cs with
      | [] => [[c]]
      | p :: ps => (c :: p) :: ps

/-- Go `strings.Split(s, sep)` for a one-character `sep`. -/
def Split (s : String) (sep : Char) : List String :=
  (splitChars sep s.data).map String.mk

/-- Go `strings.Contains(s, substr)` on character lists. -/
def containsChars (sub : List Char) : List Char → Bool
  | [] => sub.isEmpty
  | c :: cs => sub.isPrefixOf (c :: cs) || containsChars sub cs

/-- Go `strings.Contains(s, substr)`. -/
def Contains (s substr : String) : Bool :=
  containsChars substr.data s.data

/-- The levels of `logrus.Level`. -/
inductive Level where
  | PanicLevel | FatalLevel | ErrorLevel | WarnLevel | InfoLevel | DebugLevel | TraceLevel
  deriving DecidableEq, Repr

/-- The receive modes of `types.RxMode` that `LoadConfig` assigns. -/
inductive RxMode where
  | Interrupt | Polling | Adaptative
  deriving DecidableEq, Repr

/-- The constant `defaultRxMode = types.Adaptative` (config.go line 61). -/
def defaultRxMode : RxMode := RxMode.Adaptative

/-- A `net.IPNet`: the masked address bytes and the mask as (ones, bits). -/
structure IPNet where
  IP : List Nat
  ones : Nat
  bits : Nat
  deriving DecidableEq, Repr

/-- Behaviour of the Go library that is left as a parameter: the Unicode lower-casing used by
`logrus.ParseLevel`, the IPv6 address grammar of package `net` (16 bytes on success), and
whether IPv4 fields with a leading zero are rejected (they are from Go 1.17 on). -/
structure Lib where
  ToLower : String → String
  parseIPv6 : String → Option (List Nat)
  rejectLeadingZeros : Bool

/-- `logrus.ParseLevel`: `none` is the "not a valid logrus Level" error. -/
def ParseLevel (lib : Lib) (lvl : String) : Option Level :=
  let l := lib.ToLower lvl
  if l = "panic" then some Level.PanicLevel
  else if l = "fatal" then some Level.FatalLevel
  else if l = "error" then some Level.ErrorLevel
  else if l = "warn" ∨ l = "warning" then some Level.WarnLevel
  else if l = "info" then some Level.InfoLevel
  else if l = "debug" then some Level.DebugLevel
  else if l = "trace" then some Level.TraceLevel
  else none

/-- The loop of `dtoi` in Go package `net`: decimal digits are consumed while the value stays
below `big = 0xFFFFFF`; the result is the value, the number of characters consumed and
success. -/
def dtoiLoop : List Char → Nat → Nat → Nat × Nat × Bool
  | [], n, i => (n, i, true)
  | c :: cs, n, i =>
    if '0' ≤ c ∧ c ≤ '9' then
      let n1 := n * 10 + (c.toNat - '0'.toNat)
      if n1 ≥ 0xFFFFFF then (0xFFFFFF, i, false) else dtoiLoop cs n1 (i + 1)
    else (n, i, true)

/-- The function `dtoi` of Go package `net`: decimal to integer; no digit at all is a
failure. -/
def dtoi (s : List Char) : Nat × Nat × Bool :=
  let r := dtoiLoop s 0 0
  if r.2.2 && r.2.1 = 0 then (0, 0, false) else r

/-- The loop of `parseIPv4` in Go package `net`: `k` fields remain to be read, `i` have been
read into `p`. -/
def parseIPv4Loop (strict : Bool) : Nat → Nat → List Char → List Nat → Option (List Nat)
  | 0, _, s, p => if s = [] then some p else none
  | k + 1, i, s, p =>
    if s = [] then none
    else
      let s1 : Option (List Char) :=
        if i > 0 then
          match s with
          | '.' :: t => some t
          | _ => none
        else some s
      match s1 with
      | none => none
      | some s =>
        let r := dtoi s
        if !r.2.2 || r.1 > 0xFF then none
        else if strict && decide (r.2.1 > 1) && s.head? = some '0' then none
        else parseIPv4Loop strict k (i + 1) (s.drop r.2.1) (p ++ [r.1])

/-- The function `parseIPv4` of Go package `net`: four decimal fields separated by dots. -/
def parseIPv4 (lib : Lib) (s : String) : Option (List Nat) :=
  parseIPv4Loop lib.rejectLeadingZeros 4 0 s.data []

/-- Byte `k` of `net.CIDRMask(n, bits)`. -/
def maskByte (n k : Nat) : Nat :=
  if n ≥ 8 * (k + 1) then 0xFF
  else if n ≤ 8 * k then 0
  else 0x100 - 2 ^ (8 - (n - 8 * k))

/-- The address `ip.Mask(net.CIDRMask(n, bits))`. -/
def maskIP (n : Nat) : Nat → List Nat → List Nat
  | _, [] => []
  | k, b :: bs => (b &&& maskByte n k) :: maskIP n (k + 1) bs

/-- Index of the first `/` of a character list (`bytealg.IndexByteString(s, '/')`), counted in
characters, and the text before and after it. -/
def cutSlash : List Char → Option (List Char × List Char)
  | [] => none
  | c :: cs =>
    if c = '/' then some ([], cs)
    else
      match cutSlash cs with
      | none => none
      | some (a, m) => some (c :: a, m)

/-- Go `net.ParseCIDR`: the network on success, the message of the `net.ParseError`
otherwise. A text without `/` is an error; the address is read as IPv4, else as IPv6; the
mask must be a decimal number of at most `8 * len(ip)` bits. -/
def ParseCIDR (lib : Lib) (s : String) : Except String IPNet :=
  match cutSlash s.data with
  | none => Except.error ("invalid CIDR address: " ++ s)
  | some (addr, mask) =>
    let ip4 := parseIPv4 lib (String.mk addr)
    let iplen := if ip4.isSome then 4 else 16
    let ip := if ip4.isSome then ip4 else lib.parseIPv6 (String.mk addr)
    let r := dtoi mask
    match ip with
    | none => Except.error ("invalid CIDR address: " ++ s)
    | some bytes =>
      if !r.2.2 || r.2.1 ≠ mask.length || r.1 > 8 * iplen then
        Except.error ("invalid CIDR address: " ++ s)
      else Except.ok ⟨maskIP r.1 0 bytes, r.1, 8 * iplen⟩

/-! ### The environment and the package state -/

/-- The process environment, `os.Environ()`, as (name, value) entries. -/
abbrev Environ := List (String × String)

/-- Go `os.Getenv`: the value of the first entry of that name, and the empty string when
no entry has that name. -/
def Getenv (env : Environ) (key : String) : String :=
  (env.lookup key).getD ""

/-- A record written to the logger passed to `LoadConfig`. -/
inductive LogRecord where
  | Error (msg : String)
  | Warnf (msg : String)
  deriving DecidableEq, Repr

/-- The errors `LoadConfig` returns, by the call that builds them:
`InvalidConfiguration envVar conf` is
`fmt.Errorf("Invalid %s configuration: %s parses to ...", envVar, conf, ...)`;
`PskNotConfigured` is `errors.New("IKEv2 PSK not configured: ...")`;
`InvalidServicePrefix prefixStr err` is
`errors.Errorf("invalid service prefix configuration: %s %s", prefixStr, err)`. -/
inductive LoadError where
  | InvalidConfiguration (envVar conf : String)
  | PskNotConfigured
  | InvalidServicePrefix (prefixStr err : String)
  deriving DecidableEq, Repr

def NodeNameEnvVar : String := "NODENAME"
def TapNumRxQueuesEnvVar : String := "CALICOVPP_TAP_RX_QUEUES"
def TapNumTxQueuesEnvVar : String := "CALICOVPP_TAP_TX_QUEUES"
def TapGSOEnvVar : String := "CALICOVPP_DEBUG_ENABLE_GSO"
def EnableServicesEnvVar : String := "CALICOVPP_DEBUG_ENABLE_NAT"
def EnablePoliciesEnvVar : String := "CALICOVPP_DEBUG_ENABLE_POLICIES"
def CrossIpsecTunnelsEnvVar : String := "CALICOVPP_IPSEC_CROSS_TUNNELS"
def EnableIPSecEnvVar : String := "CALICOVPP_IPSEC_ENABLED"
def IPSecExtraAddressesEnvVar : String := "CALICOVPP_IPSEC_ASSUME_EXTRA_ADDRESSES"
def IPSecIkev2PskEnvVar : String := "CALICOVPP_IPSEC_IKEV2_PSK"
def TapRxModeEnvVar : String := "CALICOVPP_TAP_RX_MODE"
def TapQueueSizeEnvVar : String := "CALICOVPP_TAP_RING_SIZE"
def TapMtuEnvVar : String := "CALICOVPP_TAP_MTU"
def BgpLogLevelEnvVar : String := "CALICO_BGP_LOGSEVERITYSCREEN"
def LogLevelEnvVar : String := "CALICO_LOG_LEVEL"
def ServicePrefixEnvVar : String := "SERVICE_PREFIX"

/-- The package-level variables of `config` (config.go lines 64-82 and 98), together with the
records written to the logger. -/
structure State where
  TapNumRxQueues : Int
  TapNumTxQueues : Int
  TapGSOEnabled : Bool
  EnableServices : Bool
  EnablePolicies : Bool
  EnableIPSec : Bool
  IpsecAddressCount : Int
  CrossIpsecTunnels : Bool
  IPSecIkev2Psk : String
  TapRxMode : RxMode
  BgpLogLevel : Level
  LogLevel : Level
  NodeName : String
  ServiceCIDRs : List IPNet
  TapRxQueueSize : Int
  TapTxQueueSize : Int
  TapMtu : Int
  supportedEnvVars : List String
  logged : List LogRecord
  deriving DecidableEq, Repr

/-- The initial values of the package-level variables. -/
def initialState : State where
  TapNumRxQueues := 1
  TapNumTxQueues := 1
  TapGSOEnabled := true
  EnableServices := true
  EnablePolicies := true
  EnableIPSec := false
  IpsecAddressCount := 1
  CrossIpsecTunnels := false
  IPSecIkev2Psk := ""
  TapRxMode := defaultRxMode
  BgpLogLevel := Level.InfoLevel
  LogLevel := Level.InfoLevel
  NodeName := ""
  ServiceCIDRs := []
  TapRxQueueSize := 0
  TapTxQueueSize := 0
  TapMtu := 0
  supportedEnvVars := []
  logged := []

/-- The side effect of `getEnvValue(str)`: `supportedEnvVars[str] = true`. Its result is
`Getenv env str`. -/
def markSupported (s : State) (str : String) : State :=
  { s with supportedEnvVars := if str ∈ s.supportedEnvVars then s.supportedEnvVars
                               else s.supportedEnvVars ++ [str] }

/-- `isEnvVarSupported`. -/
def isEnvVarSupported (s : State) (str : String) : Bool :=
  decide (str ∈ s.supportedEnvVars)

/-- The state after a block of `LoadConfig` and the error it returned, if any. -/
structure Result where
  s : State
  err : Option LoadError
  deriving DecidableEq, Repr

/-- Sequencing of the blocks of `LoadConfig`: a block that returned an error ends the
function, otherwise the next block runs on the state reached. -/
def Result.andThen (r : Result) (f : State → Result) : Result :=
  match r.err with
  | none => f r.s
  | some _ => r

/-! ### `LoadConfig` (config.go lines 111-266), block by block -/

/-- Lines 114-121: an unparsable `CALICO_BGP_LOGSEVERITYSCREEN` is logged and `BgpLogLevel`
is kept; the block never returns. The message is the first argument of `Error` followed by
`conf`, as `Error` does not format. -/
def loadBgpLogLevel (lib : Lib) (env : Environ) (s : State) : Result :=
  let s := markSupported s BgpLogLevelEnvVar
  let conf := Getenv env BgpLogLevelEnvVar
  if conf ≠ "" then
    match ParseLevel lib conf with
    | none =>
      ⟨{ s with logged := s.logged ++
          [LogRecord.Error ("Failed to parse BGP loglevel: %s, defaulting to info" ++ conf)] },
        none⟩
    | some loglevel => ⟨{ s with BgpLogLevel := loglevel }, none⟩
  else ⟨s, none⟩

/-- Lines 123-130: the same for `CALICO_LOG_LEVEL` and `LogLevel`. -/
def loadLogLevel (lib : Lib) (env : Environ) (s : State) : Result :=
  let s := markSupported s LogLevelEnvVar
  let conf := Getenv env LogLevelEnvVar
  if conf ≠ "" then
    match ParseLevel lib conf with
    | none =>
      ⟨{ s with logged := s.logged ++
          [LogRecord.Error ("Failed to parse loglevel: %s, defaulting to info" ++ conf)] },
        none⟩
    | some loglevel => ⟨{ s with LogLevel := loglevel }, none⟩
  else ⟨s, none⟩

/-- Line 132: `NodeName = getEnvValue(NodeNameEnvVar)`. -/
def loadNodeName (env : Environ) (s : State) : Result :=
  let s := markSupported s NodeNameEnvVar
  ⟨{ s with NodeName := Getenv env NodeNameEnvVar }, none⟩

/-- Lines 134-140 and 142-148: a queue count, `strconv.ParseInt(conf, 10, 16)`, must parse and
be positive; `assign` stores it in `TapNumRxQueues`, respectively `TapNumTxQueues`. -/
def loadQueueCount (envVar : String) (assign : State → Int → State) (env : Environ)
    (s : State) : Result :=
  let s := markSupported s envVar
  let conf := Getenv env envVar
  if conf ≠ "" then
    let r := ParseInt conf 16
    if r.2 ≠ none ∨ r.1 ≤ 0 then ⟨s, some (LoadError.InvalidConfiguration envVar conf)⟩
    else ⟨assign s r.1, none⟩
  else ⟨s, none⟩

/-- Lines 150-156, 158-164, 166-172, 174-180 and 182-188: a boolean toggle,
`strconv.ParseBool(conf)`, must parse; `assign` stores it in the variable of the block. -/
def loadToggle (envVar : String) (assign : State → Bool → State) (env : Environ)
    (s : State) : Result :=
  let s := markSupported s envVar
  let conf := Getenv env envVar
  if conf ≠ "" then
    match ParseBool conf with
    | none => ⟨s, some (LoadError.InvalidConfiguration envVar conf)⟩
    | some b => ⟨assign s b, none⟩
  else ⟨s, none⟩

/-- Lines 190-196 and 198-204: an integer, `strconv.ParseInt(conf, 10, bitSize)`, must parse;
`assign` stores it (`IpsecAddressCount = int(v) + 1`, respectively `TapMtu = int(v)`). -/
def loadNumber (envVar : String) (bitSize : Nat) (assign : State → Int → State)
    (env : Environ) (s : State) : Result :=
  let s := markSupported s envVar
  let conf := Getenv env envVar
  if conf ≠ "" then
    let r := ParseInt conf bitSize
    if r.2 ≠ none then ⟨s, some (LoadError.InvalidConfiguration envVar conf)⟩
    else ⟨assign s r.1, none⟩
  else ⟨s, none⟩

/-- Lines 206-229: `CALICOVPP_TAP_RING_SIZE` is one size for both rings or an rx and a tx size
separated by a comma, each read by `strconv.ParseInt(_, 10, 32)`. -/
def loadTapQueueSize (env : Environ) (s : State) : Result :=
  let s := markSupported s TapQueueSizeEnvVar
  let conf := Getenv env TapQueueSizeEnvVar
  if conf ≠ "" then
    match Split conf ',' with
    | [a] =>
      let sz := ParseInt a 32
      if sz.2 ≠ none then ⟨s, some (LoadError.InvalidConfiguration TapQueueSizeEnvVar conf)⟩
      else ⟨{ s with TapRxQueueSize := sz.1, TapTxQueueSize := sz.1 }, none⟩
    | [a, b] =>
      let sz := ParseInt a 32
      if sz.2 ≠ none then ⟨s, some (LoadError.InvalidConfiguration TapQueueSizeEnvVar conf)⟩
      else
        let s := { s with TapRxQueueSize := sz.1 }
        let sz := ParseInt b 32
        if sz.2 ≠ none then ⟨s, some (LoadError.InvalidConfiguration TapQueueSizeEnvVar conf)⟩
        else ⟨{ s with TapTxQueueSize := sz.1 }, none⟩
    | _ => ⟨s, some (LoadError.InvalidConfiguration TapQueueSizeEnvVar conf)⟩
  else ⟨s, none⟩

/-- Lines 231-235: with IPsec enabled the IKEv2 pre-shared key must be set. -/
def loadIkev2Psk (env : Environ) (s : State) : Result :=
  let s := markSupported s IPSecIkev2PskEnvVar
  let psk := Getenv env IPSecIkev2PskEnvVar
  if s.EnableIPSec = true ∧ psk = "" then ⟨s, some LoadError.PskNotConfigured⟩
  else ⟨{ s with IPSecIkev2Psk := psk }, none⟩

/-- Lines 238-244, the loop over the pieces of `SERVICE_PREFIX`: each must be a CIDR and is
appended to `ServiceCIDRs`; the first one that is not ends `LoadConfig` with an error. -/
def loadServiceCIDRs (lib : Lib) : List String → State → Result
  | [], s => ⟨s, none⟩
  | prefixStr :: rest, s =>
    match ParseCIDR lib prefixStr with
    | Except.error err => ⟨s, some (LoadError.InvalidServicePrefix prefixStr err)⟩
    | Except.ok serviceCIDR =>
      loadServiceCIDRs lib rest { s with ServiceCIDRs := s.ServiceCIDRs ++ [serviceCIDR] }

/-- Lines 237-244. -/
def loadServiceNets (lib : Lib) (env : Environ) (s : State) : Result :=
  let s := markSupported s ServicePrefixEnvVar
  loadServiceCIDRs lib (Split (Getenv env ServicePrefixEnvVar) ',') s

/-- Lines 246-255: the `switch` on `CALICOVPP_TAP_RX_MODE`; any other value, the empty one
included, selects `defaultRxMode`. -/
def loadTapRxMode (env : Environ) (s : State) : Result :=
  let s := markSupported s TapRxModeEnvVar
  let v := Getenv env TapRxModeEnvVar
  ⟨{ s with TapRxMode :=
      if v = "interrupt" then RxMode.Interrupt
      else if v = "polling" then RxMode.Polling
      else if v = "adaptive" then RxMode.Adaptative
      else defaultRxMode }, none⟩

/-- Lines 257-264, the loop over `os.Environ()`: a variable whose name contains `CALICOVPP_`
and that `LoadConfig` did not read is warned about. -/
def warnUnsupported : Environ → State → State
  | [], s => s
  | (name, _) :: rest, s =>
    if Contains name "CALICOVPP_" && !isEnvVarSupported s name then
      warnUnsupported rest { s with logged := s.logged ++
        [LogRecord.Warnf ("Environment variable " ++ name ++ " is not supported")] }
    else warnUnsupported rest s

/-- Lines 112-235 of `LoadConfig`: everything before `SERVICE_PREFIX` is read. -/
def loadBeforeServiceNets (lib : Lib) (env : Environ) (s : State) : Result :=
  (⟨{ s with supportedEnvVars := [] }, none⟩ : Result)
    |>.andThen (loadBgpLogLevel lib env)
    |>.andThen (loadLogLevel lib env)
    |>.andThen (loadNodeName env)
    |>.andThen (loadQueueCount TapNumRxQueuesEnvVar (fun s v => { s with TapNumRxQueues := v }) env)
    |>.andThen (loadQueueCount TapNumTxQueuesEnvVar (fun s v => { s with TapNumTxQueues := v }) env)
    |>.andThen (loadToggle TapGSOEnvVar (fun s v => { s with TapGSOEnabled := v }) env)
    |>.andThen (loadToggle EnableIPSecEnvVar (fun s v => { s with EnableIPSec := v }) env)
    |>.andThen (loadToggle CrossIpsecTunnelsEnvVar (fun s v => { s with CrossIpsecTunnels := v }) env)
    |>.andThen (loadToggle EnableServicesEnvVar (fun s v => { s with EnableServices := v }) env)
    |>.andThen (loadToggle EnablePoliciesEnvVar (fun s v => { s with EnablePolicies := v }) env)
    |>.andThen (loadNumber IPSecExtraAddressesEnvVar 8
        (fun s v => { s with IpsecAddressCount := v + 1 }) env)
    |>.andThen (loadNumber TapMtuEnvVar 32 (fun s v => { s with TapMtu := v }) env)
    |>.andThen (loadTapQueueSize env)
    |>.andThen (loadIkev2Psk env)

/-- `func LoadConfig(log *logrus.Logger) (err error)`: the state of the package afterwards and
the error returned. -/
def LoadConfig (lib : Lib) (env : Environ) (s : State) : Result :=
  loadBeforeServiceNets lib env s
    |>.andThen (loadServiceNets lib env)
    |>.andThen (loadTapRxMode env)
    |>.andThen (fun s => ⟨warnUnsupported env s, none⟩)

/-! ### What each recognised variable must look like -/

/-- A non-empty queue count that does not parse as a positive 16-bit integer. -/
def badQueueCount (conf : String) : Bool :=
  conf ≠ "" && (decide ((ParseInt conf 16).2 ≠ none) || decide ((ParseInt conf 16).1 ≤ 0))

/-- A non-empty toggle that does not parse as a boolean. -/
def badToggle (conf : String) : Bool :=
  conf ≠ "" && (ParseBool conf).isNone

/-- A non-empty number that does not parse as an integer of `bitSize` bits. -/
def badNumber (bitSize : Nat) (conf : String) : Bool :=
  conf ≠ "" && decide ((ParseInt conf bitSize).2 ≠ none)

/-- A non-empty ring size that is not one or two comma-separated 32-bit integers. -/
def badRingSize (conf : String) : Bool :=
  conf ≠ "" &&
    match Split conf ',' with
    | [a] => decide ((ParseInt a 32).2 ≠ none)
    | [a, b] => decide ((ParseInt a 32).2 ≠ none) || decide ((ParseInt b 32).2 ≠ none)
    | _ => true

/-- A service list with a comma-separated piece that is not a CIDR. -/
def badServiceList (lib : Lib) (conf : String) : Bool :=
  (Split conf ',').any (fun p => !(ParseCIDR lib p).toBool)

/-- Some variable whose parse failure `LoadConfig` treats as fatal holds a non-empty value
that does not parse as a value of its kind. -/
def fatalVariableInvalid (lib : Lib) (env : Environ) : Bool :=
  badQueueCount (Getenv env TapNumRxQueuesEnvVar) ||
  badQueueCount (Getenv env TapNumTxQueuesEnvVar) ||
  badToggle (Getenv env TapGSOEnvVar) ||
  badToggle (Getenv env EnableIPSecEnvVar) ||
  badToggle (Getenv env CrossIpsecTunnelsEnvVar) ||
  badToggle (Getenv env EnableServicesEnvVar) ||
  badToggle (Getenv env EnablePoliciesEnvVar) ||
  badNumber 8 (Getenv env IPSecExtraAddressesEnvVar) ||
  badNumber 32 (Getenv env TapMtuEnvVar) ||
  badRingSize (Getenv env TapQueueSizeEnvVar) ||
  (Getenv env ServicePrefixEnvVar ≠ "" && badServiceList lib (Getenv env ServicePrefixEnvVar))

/-- The value of `EnableIPSec` once `CALICOVPP_IPSEC_ENABLED` has been read: the parsed
value when the variable is set, the previous value of the variable otherwise. -/
def ipsecEnabled (env : Environ) (s : State) : Bool :=
  if Getenv env EnableIPSecEnvVar = "" then s.EnableIPSec
  else (ParseBool (Getenv env EnableIPSecEnvVar)).getD false

/-- The state `s1` agrees with `s` on the log levels, on `EnableIPSec` and on the records
logged. -/
def SameCore (s s1 : State) : Prop :=
  s1.BgpLogLevel = s.BgpLogLevel ∧ s1.LogLevel = s.LogLevel ∧
    s1.EnableIPSec = s.EnableIPSec ∧ s1.logged = s.logged

/-! ### Concrete inputs -/

/-- Lower-casing of the ASCII letters `A` to `Z`, other characters unchanged. -/
def asciiLower (c : Char) : Char :=
  if 'A' ≤ c ∧ c ≤ 'Z' then Char.ofNat (c.toNat + 32) else c

/-- The library on ASCII input: lower-casing of the ASCII letters, no IPv6 address, IPv4
fields with leading zeros accepted. -/
def asciiLib : Lib where
  ToLower := fun s => String.mk (s.data.map asciiLower)
  parseIPv6 := fun _ => none
  rejectLeadingZeros := false

/-- An environment with unparsable log levels and receive mode and a valid service list. -/
def envBadLevels : Environ :=
  [(BgpLogLevelEnvVar, "bogus"), (LogLevelEnvVar, "bogus"), (TapRxModeEnvVar, "bogus"),
    (ServicePrefixEnvVar, "10.96.0.0/12")]

end Config

/-! ## Theorems -/

namespace Uplink

theorem tagCalls_append (a b : List Call) : tagCalls (a ++ b) = tagCalls a + tagCalls b := by
  induction a with
  | nil => simp [tagCalls]
  | cons x xs ih => cases x <;> simp [tagCalls, ih] <;> omega

theorem flagMutations_append (a b : List Call) :
    flagMutations (a ++ b) = flagMutations a + flagMutations b := by
  induction a with
  | nil => simp [flagMutations]
  | cons x xs ih => cases x <;> simp [flagMutations, ih] <;> omega

/-- C1: for a primary interface, when the namespace move succeeded and `CreateAfPacket`
returned an index `i` other than `DataInterfaceSwIfIndex` (1), `CreateMainVppInterface` returns
the non-nil "wrong swIfIndex" error, the only calls it made are the namespace move and the
creation, and no `TagMainInterface` call was added to the trace. -/
theorem C1_wrong_index_fails_untagged (d : AFPacketDriver) (env : Env) (vppPid : Int)
    (w : World) (i : Nat)
    (hmain : d.spec.IsMain = true)
    (hns : env.moveInterfaceToNS d.spec.InterfaceName vppPid = none)
    (hcreate : env.CreateAfPacket = Except.ok i)
    (hi : i ≠ DataInterfaceSwIfIndex) :
    (CreateMainVppInterface d env vppPid w).err
        = some ("Created AF_PACKET interface has wrong swIfIndex " ++ toString i ++ "!") ∧
      (CreateMainVppInterface d env vppPid w).w.calls
        = w.calls ++ [Call.moveInterfaceToNS d.spec.InterfaceName vppPid, Call.CreateAfPacket] ∧
      tagCalls (CreateMainVppInterface d env vppPid w).w.calls = tagCalls w.calls := by
  simp [CreateMainVppInterface, hns, hcreate, hmain, hi, World.call, World.log,
    tagCalls_append, tagCalls]

theorem C1_wrong_index_fails_untagged_witness :
    (CreateMainVppInterface (eth0 true false false) (envOk 2) 42 (worldOf ⟨false, false⟩)).err
        = some ("Created AF_PACKET interface has wrong swIfIndex " ++ toString 2 ++ "!") ∧
      (CreateMainVppInterface (eth0 true false false) (envOk 2) 42 (worldOf ⟨false, false⟩)).w.calls
        = (worldOf ⟨false, false⟩).calls ++
          [Call.moveInterfaceToNS (eth0 true false false).spec.InterfaceName 42,
            Call.CreateAfPacket] ∧
      tagCalls (CreateMainVppInterface (eth0 true false false) (envOk 2) 42
          (worldOf ⟨false, false⟩)).w.calls = tagCalls (worldOf ⟨false, false⟩).calls :=
  C1_wrong_index_fails_untagged (eth0 true false false) (envOk 2) 42 (worldOf ⟨false, false⟩) 2
    rfl rfl rfl (by decide)

/-- C2 (as stated, refuted): with an up snapshot whose `PromiscOn` is false, when bringing the
interface up fails, `RestoreLinux` returns after the warning: neither the promiscuity restore
nor `restoreLinuxIfConf` is attempted. -/
theorem C2_bring_up_failure_stops_restore :
    (envUpFails "no such device").SafeSetInterfaceUpByName "eth0" = some "no such device" ∧
      (eth0 true true false).conf = ⟨true, false⟩ ∧
      (RestoreLinux (eth0 true true false) (envUpFails "no such device") false
          (worldOf ⟨false, true⟩)).calls
        = [Call.moveInterfaceFromNS "eth0", Call.SafeSetInterfaceUpByName "eth0"] ∧
      Call.SetPromiscOff ⟨"eth0"⟩ ∉
        (RestoreLinux (eth0 true true false) (envUpFails "no such device") false
          (worldOf ⟨false, true⟩)).calls ∧
      Call.restoreLinuxIfConf ⟨"eth0"⟩ ∉
        (RestoreLinux (eth0 true true false) (envUpFails "no such device") false
          (worldOf ⟨false, true⟩)).calls := by
  decide

/-- C2 (amended): `RestoreLinux` is a total function of the sub-step outcomes and so always
returns; its calls and diagnostics are, for every outcome of the sub-steps, exactly these.
The namespace move-back is made when `allInterfacesPhysical` is false, whatever the snapshot,
and its failure is logged as a warning carrying the error without preventing what follows.
With a down snapshot nothing else is called or logged. With an up snapshot the bring-up is
called next; its failure is logged as a warning naming the interface and ends the
restoration: no later call is made. After a successful bring-up the promiscuity restore is
called exactly when the snapshot has `PromiscOn = false`, its failure is logged as an error
naming the interface, and `restoreLinuxIfConf` is the last call whatever that outcome. -/
theorem C2_restore_best_effort (d : AFPacketDriver) (env : Env) (p : Bool) (w : World) :
    (d.conf.IsUp = false →
      (RestoreLinux d env p w).calls
          = w.calls ++ (if p then [] else [Call.moveInterfaceFromNS d.spec.InterfaceName]) ∧
        (RestoreLinux d env p w).logs
          = w.logs ++ (if p then [] else
              (env.moveInterfaceFromNS d.spec.InterfaceName).toList.map
                (fun e => LogEntry.Warnf ("Moving uplink back from NS failed " ++ e)))) ∧
    (∀ e, d.conf.IsUp = true → env.SafeSetInterfaceUpByName d.spec.InterfaceName = some e →
      (RestoreLinux d env p w).calls
          = w.calls ++ (if p then [] else [Call.moveInterfaceFromNS d.spec.InterfaceName]) ++
              [Call.SafeSetInterfaceUpByName d.spec.InterfaceName] ∧
        (RestoreLinux d env p w).logs
          = w.logs ++ (if p then [] else
              (env.moveInterfaceFromNS d.spec.InterfaceName).toList.map
                (fun e => LogEntry.Warnf ("Moving uplink back from NS failed " ++ e))) ++
              [LogEntry.Warnf ("Error setting " ++ d.spec.InterfaceName ++ " up: " ++ e)] ∧
        Mentions ("Error setting " ++ d.spec.InterfaceName ++ " up: " ++ e)
          d.spec.InterfaceName ∧
        Mentions ("Error setting " ++ d.spec.InterfaceName ++ " up: " ++ e) e) ∧
    (d.conf.IsUp = true → env.SafeSetInterfaceUpByName d.spec.InterfaceName = none →
      (RestoreLinux d env p w).calls
          = w.calls ++ (if p then [] else [Call.moveInterfaceFromNS d.spec.InterfaceName]) ++
              [Call.SafeSetInterfaceUpByName d.spec.InterfaceName] ++
              (if d.conf.PromiscOn then [] else [Call.SetPromiscOff ⟨d.spec.InterfaceName⟩]) ++
              [Call.restoreLinuxIfConf ⟨d.spec.InterfaceName⟩] ∧
        (RestoreLinux d env p w).logs
          = w.logs ++ (if p then [] else
              (env.moveInterfaceFromNS d.spec.InterfaceName).toList.map
                (fun e => LogEntry.Warnf ("Moving uplink back from NS failed " ++ e))) ++
              (if d.conf.PromiscOn then [] else
                LogEntry.Infof "Setting promisc off" ::
                  (env.SetPromiscOff ⟨d.spec.InterfaceName⟩).toList.map
                    (fun e => LogEntry.Errorf
                      ("Error setting link " ++ d.spec.InterfaceName ++ " promisc off " ++ e)))) ∧
    (∀ e, Mentions ("Error setting link " ++ d.spec.InterfaceName ++ " promisc off " ++ e)
          d.spec.InterfaceName ∧
        Mentions ("Error setting link " ++ d.spec.InterfaceName ++ " promisc off " ++ e) e) := by
  refine ⟨?_, ?_, ?_, ?_⟩
  · intro hdown
    cases p <;> cases hmv : env.moveInterfaceFromNS d.spec.InterfaceName <;>
      simp [RestoreLinux, restoreNamespace, hdown, hmv, World.call, World.log]
  · intro e hup hfail
    refine ⟨?_, ?_, ⟨"Error setting ", " up: " ++ e, by simp [String.append_assoc]⟩,
      ⟨"Error setting " ++ d.spec.InterfaceName ++ " up: ", "", by simp⟩⟩ <;>
    cases p <;> cases hmv : env.moveInterfaceFromNS d.spec.InterfaceName <;>
      simp [RestoreLinux, restoreNamespace, hup, hfail, hmv, World.call, World.log]
  · intro hup hok
    constructor <;>
    cases p <;> cases hmv : env.moveInterfaceFromNS d.spec.InterfaceName <;>
      cases hpr : d.conf.PromiscOn <;>
      cases hoff : env.SetPromiscOff ⟨d.spec.InterfaceName⟩ <;>
      simp [RestoreLinux, restoreNamespace, hup, hok, hmv, hpr, hoff, World.call, World.log,
        World.setUp, World.setPromisc]
  · intro e
    exact ⟨⟨"Error setting link ", " promisc off " ++ e, by simp [String.append_assoc]⟩,
      ⟨"Error setting link " ++ d.spec.InterfaceName ++ " promisc off ", "", by simp⟩⟩

theorem C2_restore_best_effort_witness :
    (RestoreLinux (eth0 true true false)
          { envUpFails "no such device" with moveInterfaceFromNS := fun _ => some "EINVAL" }
          false (worldOf ⟨false, true⟩)).calls
        = [Call.moveInterfaceFromNS "eth0", Call.SafeSetInterfaceUpByName "eth0"] ∧
      (RestoreLinux (eth0 true true false)
          { envUpFails "no such device" with moveInterfaceFromNS := fun _ => some "EINVAL" }
          false (worldOf ⟨false, true⟩)).logs
        = [LogEntry.Warnf "Moving uplink back from NS failed EINVAL",
            LogEntry.Warnf "Error setting eth0 up: no such device"] ∧
      Mentions "Error setting eth0 up: no such device" "eth0" ∧
      Mentions "Error setting eth0 up: no such device" "no such device" :=
  (C2_restore_best_effort (eth0 true true false)
    { envUpFails "no such device" with moveInterfaceFromNS := fun _ => some "EINVAL" }
    false (worldOf ⟨false, true⟩)).2.1 "no such device" rfl rfl

/-- C3 (as stated, refuted): for an interface that was down and not promiscuous, with every
kernel operation succeeding, `PreconfigureLinux` followed by `RestoreLinux` leaves the
promiscuity flag on, unlike the snapshot. -/
theorem C3_down_interface_left_promiscuous :
    (worldOf ⟨false, false⟩).kernel "eth0" = ⟨false, false⟩ ∧
      (eth0 true false false).conf = ⟨false, false⟩ ∧
      (PreconfigureLinux (eth0 true false false) (envOk 1) (worldOf ⟨false, false⟩)).err = none ∧
      (RestoreLinux (eth0 true false false) (envOk 1) false
        (PreconfigureLinux (eth0 true false false) (envOk 1) (worldOf ⟨false, false⟩)).w).kernel
          "eth0" = ⟨false, true⟩ := by
  decide

/-- C3 (amended): starting from kernel flags equal to the snapshot `(IsUp, PromiscOn)`, with
the lookup, `SetPromiscOn`, the bring-up and `SetPromiscOff` succeeding, `PreconfigureLinux`
followed by `RestoreLinux` leaves the administrative state equal to the snapshot; the
promiscuity flag equals the snapshot when the interface was up, and is left on when the
interface was down. -/
theorem C3_round_trip (d : AFPacketDriver) (env : Env) (w : World) (p : Bool)
    (hsnap : w.kernel d.spec.InterfaceName = ⟨d.conf.IsUp, d.conf.PromiscOn⟩)
    (hlookup : env.LinkByName d.spec.InterfaceName = none)
    (hon : env.SetPromiscOn ⟨d.spec.InterfaceName⟩ = none)
    (hup : env.SafeSetInterfaceUpByName d.spec.InterfaceName = none)
    (hoff : env.SetPromiscOff ⟨d.spec.InterfaceName⟩ = none) :
    (PreconfigureLinux d env w).err = none ∧
      ((RestoreLinux d env p (PreconfigureLinux d env w).w).kernel d.spec.InterfaceName).up
        = d.conf.IsUp ∧
      ((RestoreLinux d env p (PreconfigureLinux d env w).w).kernel d.spec.InterfaceName).promisc
        = (d.conf.PromiscOn || !d.conf.IsUp) := by
  have hk : ∀ w0 : World, (restoreNamespace d env p w0).kernel = w0.kernel := by
    intro w0
    unfold restoreNamespace
    cases p <;> cases hmv : env.moveInterfaceFromNS d.spec.InterfaceName <;>
      simp [hmv, World.call, World.log]
  refine ⟨by simp [PreconfigureLinux, hlookup, hon], ?_, ?_⟩
  · cases hU : d.conf.IsUp <;> cases hP : d.conf.PromiscOn <;>
      simp [RestoreLinux, PreconfigureLinux, hlookup, hon, hup, hoff, hU, hP, hk, hsnap,
        World.call, World.log, World.setUp, World.setPromisc]
  · cases hU : d.conf.IsUp <;> cases hP : d.conf.PromiscOn <;>
      simp [RestoreLinux, PreconfigureLinux, hlookup, hon, hup, hoff, hU, hP, hk, hsnap,
        World.call, World.log, World.setUp, World.setPromisc]

theorem C3_round_trip_witness :
    (PreconfigureLinux (eth0 true true false) (envOk 1) (worldOf ⟨true, false⟩)).err = none ∧
      ((RestoreLinux (eth0 true true false) (envOk 1) false
        (PreconfigureLinux (eth0 true true false) (envOk 1) (worldOf ⟨true, false⟩)).w).kernel
          (eth0 true true false).spec.InterfaceName).up = (eth0 true true false).conf.IsUp ∧
      ((RestoreLinux (eth0 true true false) (envOk 1) false
        (PreconfigureLinux (eth0 true true false) (envOk 1) (worldOf ⟨true, false⟩)).w).kernel
          (eth0 true true false).spec.InterfaceName).promisc
        = ((eth0 true true false).conf.PromiscOn || !(eth0 true true false).conf.IsUp) :=
  C3_round_trip (eth0 true true false) (envOk 1) (worldOf ⟨true, false⟩) false
    rfl rfl rfl rfl rfl

/-- C4: when the snapshot has `IsUp = false`, the calls `RestoreLinux` makes are exactly
the move-back of `spec.InterfaceName` out of the namespace when `allInterfacesPhysical` is
false and none otherwise, whatever the outcome of the move; no call mutating link flags is
made (no bring-up, no promiscuity change), `restoreLinuxIfConf` is not called, and the kernel
flags are unchanged. -/
theorem C4_down_snapshot_only_moves_back (d : AFPacketDriver) (env : Env) (p : Bool) (w : World)
    (hdown : d.conf.IsUp = false) :
    (RestoreLinux d env p w).calls
        = w.calls ++ (if p then [] else [Call.moveInterfaceFromNS d.spec.InterfaceName]) ∧
      flagMutations (RestoreLinux d env p w).calls = flagMutations w.calls ∧
      (RestoreLinux d env p w).kernel = w.kernel := by
  cases p <;> cases hmv : env.moveInterfaceFromNS d.spec.InterfaceName <;>
    simp [RestoreLinux, restoreNamespace, hdown, hmv, World.call, World.log,
      flagMutations_append, flagMutations]

theorem C4_down_snapshot_only_moves_back_witness :
    (RestoreLinux (eth0 true false false) (envOk 1) false (worldOf ⟨false, true⟩)).calls
        = (worldOf ⟨false, true⟩).calls ++
          (if false then [] else
            [Call.moveInterfaceFromNS (eth0 true false false).spec.InterfaceName]) ∧
      flagMutations (RestoreLinux (eth0 true false false) (envOk 1) false
        (worldOf ⟨false, true⟩)).calls = flagMutations (worldOf ⟨false, true⟩).calls ∧
      (RestoreLinux (eth0 true false false) (envOk 1) false (worldOf ⟨false, true⟩)).kernel
        = (worldOf ⟨false, true⟩).kernel :=
  C4_down_snapshot_only_moves_back (eth0 true false false) (envOk 1) false
    (worldOf ⟨false, true⟩) rfl

/-- C5: when the kernel link lookup of `spec.InterfaceName` fails with `e`,
`PreconfigureLinux` returns the non-nil error "Error finding link NAME: e", which contains the
interface name; the lookup is the only call made, so `SetPromiscOn` is not called, and the
kernel flags are unchanged. -/
theorem C5_lookup_failure_fails_fast (d : AFPacketDriver) (env : Env) (w : World) (e : String)
    (hfail : env.LinkByName d.spec.InterfaceName = some e) :
    (PreconfigureLinux d env w).err
        = some ("Error finding link " ++ d.spec.InterfaceName ++ ": " ++ e) ∧
      (∃ msg, (PreconfigureLinux d env w).err = some msg ∧ Mentions msg d.spec.InterfaceName) ∧
      (PreconfigureLinux d env w).w.calls = w.calls ++ [Call.LinkByName d.spec.InterfaceName] ∧
      flagMutations (PreconfigureLinux d env w).w.calls = flagMutations w.calls ∧
      (PreconfigureLinux d env w).w.kernel = w.kernel := by
  refine ⟨by simp [PreconfigureLinux, hfail, Wrapf],
    ⟨_, by simp [PreconfigureLinux, hfail, Wrapf]; rfl,
      ⟨"Error finding link ", ": " ++ e, by simp [String.append_assoc]⟩⟩, ?_, ?_, ?_⟩ <;>
    simp [PreconfigureLinux, hfail, World.call, flagMutations_append, flagMutations]

theorem C5_lookup_failure_fails_fast_witness :
    (PreconfigureLinux ⟨⟨"doesnotexist", true, 0⟩, ⟨false, false⟩⟩
        (envLookupFails "Link not found") (worldOf ⟨false, false⟩)).err
        = some ("Error finding link " ++ "doesnotexist" ++ ": " ++ "Link not found") ∧
      (∃ msg, (PreconfigureLinux ⟨⟨"doesnotexist", true, 0⟩, ⟨false, false⟩⟩
          (envLookupFails "Link not found") (worldOf ⟨false, false⟩)).err = some msg ∧
        Mentions msg "doesnotexist") ∧
      (PreconfigureLinux ⟨⟨"doesnotexist", true, 0⟩, ⟨false, false⟩⟩
        (envLookupFails "Link not found") (worldOf ⟨false, false⟩)).w.calls
        = (worldOf ⟨false, false⟩).calls ++ [Call.LinkByName "doesnotexist"] ∧
      flagMutations (PreconfigureLinux ⟨⟨"doesnotexist", true, 0⟩, ⟨false, false⟩⟩
        (envLookupFails "Link not found") (worldOf ⟨false, false⟩)).w.calls
        = flagMutations (worldOf ⟨false, false⟩).calls ∧
      (PreconfigureLinux ⟨⟨"doesnotexist", true, 0⟩, ⟨false, false⟩⟩
        (envLookupFails "Link not found") (worldOf ⟨false, false⟩)).w.kernel
        = (worldOf ⟨false, false⟩).kernel :=
  C5_lookup_failure_fails_fast ⟨⟨"doesnotexist", true, 0⟩, ⟨false, false⟩⟩
    (envLookupFails "Link not found") (worldOf ⟨false, false⟩) "Link not found" rfl

/-- C6 (as stated, refuted): `spec.SwIfIndex` is assigned before `TagMainInterface` is called,
so a run that fails at tagging returns a non-nil error with `spec.SwIfIndex` changed (here
from 0 to 1). -/
theorem C6_tag_failure_keeps_new_index :
    (eth0 true false false).spec.SwIfIndex = 0 ∧
      (CreateMainVppInterface (eth0 true false false) (envTagFails 1 "tag failed") 42
        (worldOf ⟨false, true⟩)).err = some "tag failed" ∧
      (CreateMainVppInterface (eth0 true false false) (envTagFails 1 "tag failed") 42
        (worldOf ⟨false, true⟩)).d.spec.SwIfIndex = 1 := by
  decide

/-- C6 (amended): when `CreateMainVppInterface` fails at the namespace move, at the creation
or at the index check, `spec.SwIfIndex` keeps its value from before the call; when it fails at
tagging, the error of `TagMainInterface` is returned and `spec.SwIfIndex` already holds the
index returned by `CreateAfPacket`. The rest of the driver never changes. -/
theorem C6_index_recorded_once_created (d : AFPacketDriver) (env : Env) (vppPid : Int)
    (w : World) :
    (∀ e, env.moveInterfaceToNS d.spec.InterfaceName vppPid = some e →
      (CreateMainVppInterface d env vppPid w).err ≠ none ∧
        (CreateMainVppInterface d env vppPid w).d = d) ∧
    (∀ e, env.moveInterfaceToNS d.spec.InterfaceName vppPid = none →
      env.CreateAfPacket = Except.error e →
      (CreateMainVppInterface d env vppPid w).err ≠ none ∧
        (CreateMainVppInterface d env vppPid w).d = d) ∧
    (∀ i, env.moveInterfaceToNS d.spec.InterfaceName vppPid = none →
      env.CreateAfPacket = Except.ok i → d.spec.IsMain = true → i ≠ DataInterfaceSwIfIndex →
      (CreateMainVppInterface d env vppPid w).err ≠ none ∧
        (CreateMainVppInterface d env vppPid w).d = d) ∧
    (∀ i e, env.moveInterfaceToNS d.spec.InterfaceName vppPid = none →
      env.CreateAfPacket = Except.ok i → (d.spec.IsMain = false ∨ i = DataInterfaceSwIfIndex) →
      env.TagMainInterface i d.spec.InterfaceName = some e →
      (CreateMainVppInterface d env vppPid w).err = some e ∧
        (CreateMainVppInterface d env vppPid w).d
          = { d with spec := { d.spec with SwIfIndex := i } }) := by
  refine ⟨?_, ?_, ?_, ?_⟩
  · intro e hns
    simp [CreateMainVppInterface, hns]
  · intro e hns hc
    simp [CreateMainVppInterface, hns, hc]
  · intro i hns hc hmain hi
    simp [CreateMainVppInterface, hns, hc, hmain, hi]
  · intro i e hns hc hmain htag
    rcases hmain with hmain | hmain
    · simp [CreateMainVppInterface, hns, hc, hmain, htag]
    · subst hmain
      simp [CreateMainVppInterface, hns, hc, htag]

theorem C6_index_recorded_once_created_witness :
    (CreateMainVppInterface (eth0 true false false) (envTagFails 1 "tag failed") 42
        (worldOf ⟨false, true⟩)).err = some "tag failed" ∧
      (CreateMainVppInterface (eth0 true false false) (envTagFails 1 "tag failed") 42
        (worldOf ⟨false, true⟩)).d
        = { eth0 true false false with
            spec := { (eth0 true false false).spec with SwIfIndex := 1 } } :=
  (C6_index_recorded_once_created (eth0 true false false) (envTagFails 1 "tag failed") 42
    (worldOf ⟨false, true⟩)).2.2.2 1 "tag failed" rfl rfl (Or.inr rfl) rfl

/-- C7: `CreateMainVppInterface` performs the namespace move, `CreateAfPacket` and
`TagMainInterface` in this order, and its calls are exactly these, for every outcome. A failed
move returns a non-nil error with the move as the only call. After a successful move the
creation is called; its failure returns a non-nil error with no later call. After a
successful creation of `i`, an index mismatch on a primary interface returns a non-nil error
with no later call; otherwise `TagMainInterface (i, spec.InterfaceName)` is called, the index
is recorded, and the result is the result of the tagging: a non-nil error when it fails, nil
when it succeeds. -/
theorem C7_steps_in_order_first_failure_aborts (d : AFPacketDriver) (env : Env) (vppPid : Int)
    (w : World) :
    ((CreateMainVppInterface d env vppPid w).w.calls
        = w.calls ++ [Call.moveInterfaceToNS d.spec.InterfaceName vppPid] ∨
      (env.moveInterfaceToNS d.spec.InterfaceName vppPid = none ∧
        (CreateMainVppInterface d env vppPid w).w.calls
          = w.calls ++ [Call.moveInterfaceToNS d.spec.InterfaceName vppPid,
              Call.CreateAfPacket]) ∨
      (env.moveInterfaceToNS d.spec.InterfaceName vppPid = none ∧
        ∃ i, env.CreateAfPacket = Except.ok i ∧
          (CreateMainVppInterface d env vppPid w).w.calls
            = w.calls ++ [Call.moveInterfaceToNS d.spec.InterfaceName vppPid,
                Call.CreateAfPacket, Call.TagMainInterface i d.spec.InterfaceName])) ∧
    (∀ e, env.moveInterfaceToNS d.spec.InterfaceName vppPid = some e →
      (CreateMainVppInterface d env vppPid w).err = some ("Moving uplink in NS failed: " ++ e) ∧
        (CreateMainVppInterface d env vppPid w).w.calls
          = w.calls ++ [Call.moveInterfaceToNS d.spec.InterfaceName vppPid]) ∧
    (∀ e, env.moveInterfaceToNS d.spec.InterfaceName vppPid = none →
      env.CreateAfPacket = Except.error e →
      (CreateMainVppInterface d env vppPid w).err
          = some ("Error creating AF_PACKET interface: " ++ e) ∧
        (CreateMainVppInterface d env vppPid w).w.calls
          = w.calls ++ [Call.moveInterfaceToNS d.spec.InterfaceName vppPid,
              Call.CreateAfPacket]) ∧
    (∀ i e, env.moveInterfaceToNS d.spec.InterfaceName vppPid = none →
      env.CreateAfPacket = Except.ok i →
      env.TagMainInterface i d.spec.InterfaceName = some e →
      (CreateMainVppInterface d env vppPid w).err ≠ none) ∧
    (∀ i, env.moveInterfaceToNS d.spec.InterfaceName vppPid = none →
      env.CreateAfPacket = Except.ok i →
      d.spec.IsMain = true → i ≠ DataInterfaceSwIfIndex →
      (CreateMainVppInterface d env vppPid w).err ≠ none ∧
        (CreateMainVppInterface d env vppPid w).w.calls
          = w.calls ++ [Call.moveInterfaceToNS d.spec.InterfaceName vppPid,
              Call.CreateAfPacket]) ∧
    (∀ i, env.moveInterfaceToNS d.spec.InterfaceName vppPid = none →
      env.CreateAfPacket = Except.ok i →
      (d.spec.IsMain = false ∨ i = DataInterfaceSwIfIndex) →
      (CreateMainVppInterface d env vppPid w).err
          = env.TagMainInterface i d.spec.InterfaceName ∧
        (CreateMainVppInterface d env vppPid w).w.calls
          = w.calls ++ [Call.moveInterfaceToNS d.spec.InterfaceName vppPid,
              Call.CreateAfPacket, Call.TagMainInterface i d.spec.InterfaceName] ∧
        (CreateMainVppInterface d env vppPid w).d.spec.SwIfIndex = i) := by
  refine ⟨?_, ?_, ?_, ?_, ?_, ?_⟩
  · cases hns : env.moveInterfaceToNS d.spec.InterfaceName vppPid with
    | some e => left; simp [CreateMainVppInterface, hns, World.call]
    | none =>
      right
      cases hc : env.CreateAfPacket with
      | error e => left; simp [CreateMainVppInterface, hns, hc, World.call]
      | ok i =>
        by_cases hm : (d.spec.IsMain && i != DataInterfaceSwIfIndex) = true
        · left; simp [CreateMainVppInterface, hns, hc, hm, World.call, World.log]
        · right
          refine ⟨rfl, i, rfl, ?_⟩
          cases htag : env.TagMainInterface i d.spec.InterfaceName <;>
            simp [CreateMainVppInterface, hns, hc, hm, htag, World.call, World.log]
  · intro e hns
    simp [CreateMainVppInterface, hns, World.call, Wrapf]
  · intro e hns hc
    simp [CreateMainVppInterface, hns, hc, World.call, Wrapf]
  · intro i e hns hc htag
    by_cases hm : (d.spec.IsMain && i != DataInterfaceSwIfIndex) = true
    · simp [CreateMainVppInterface, hns, hc, hm]
    · simp [CreateMainVppInterface, hns, hc, hm, htag]
  · intro i hns hc hmain hi
    simp [CreateMainVppInterface, hns, hc, hmain, hi, World.call, World.log]
  · intro i hns hc hidx
    have hm : (d.spec.IsMain && i != DataInterfaceSwIfIndex) = false := by
      rcases hidx with h | h <;> simp [h]
    cases htag : env.TagMainInterface i d.spec.InterfaceName <;>
      simp [CreateMainVppInterface, hns, hc, hm, htag, World.call, World.log]

theorem C7_steps_in_order_first_failure_aborts_witness :
    (CreateMainVppInterface (eth0 false false false) (envTagFails 7 "tag refused") 42
        (worldOf ⟨false, true⟩)).err = some "tag refused" ∧
      (CreateMainVppInterface (eth0 false false false) (envTagFails 7 "tag refused") 42
        (worldOf ⟨false, true⟩)).w.calls
        = [Call.moveInterfaceToNS "eth0" 42, Call.CreateAfPacket,
            Call.TagMainInterface 7 "eth0"] ∧
      (CreateMainVppInterface (eth0 false false false) (envTagFails 7 "tag refused") 42
        (worldOf ⟨false, true⟩)).d.spec.SwIfIndex = 7 :=
  (C7_steps_in_order_first_failure_aborts (eth0 false false false)
    (envTagFails 7 "tag refused") 42 (worldOf ⟨false, true⟩)).2.2.2.2.2 7 rfl rfl (Or.inl rfl)

/-- C8: when the namespace move, the creation (returning `i`) and the tagging all succeed and
either the interface is not primary or `i = 1`, `CreateMainVppInterface` returns nil,
`spec.SwIfIndex` is `i` afterwards, and the calls made are the move, the creation and one
`TagMainInterface (i, spec.InterfaceName)`; for a non-primary interface this holds for every
`i`, so no index causes a mismatch failure. -/
theorem C8_success_records_and_tags (d : AFPacketDriver) (env : Env) (vppPid : Int)
    (w : World) (i : Nat)
    (hns : env.moveInterfaceToNS d.spec.InterfaceName vppPid = none)
    (hcreate : env.CreateAfPacket = Except.ok i)
    (htag : env.TagMainInterface i d.spec.InterfaceName = none)
    (hidx : d.spec.IsMain = false ∨ i = DataInterfaceSwIfIndex) :
    (CreateMainVppInterface d env vppPid w).err = none ∧
      (CreateMainVppInterface d env vppPid w).d.spec.SwIfIndex = i ∧
      (CreateMainVppInterface d env vppPid w).w.calls
        = w.calls ++ [Call.moveInterfaceToNS d.spec.InterfaceName vppPid, Call.CreateAfPacket,
            Call.TagMainInterface i d.spec.InterfaceName] ∧
      tagCalls (CreateMainVppInterface d env vppPid w).w.calls = tagCalls w.calls + 1 := by
  rcases hidx with hidx | hidx
  · simp [CreateMainVppInterface, hns, hcreate, htag, hidx, World.call, World.log,
      tagCalls_append, tagCalls]
  · subst hidx
    simp [CreateMainVppInterface, hns, hcreate, htag, World.call, World.log,
      tagCalls_append, tagCalls]

theorem C8_success_records_and_tags_witness :
    (CreateMainVppInterface (eth0 true false false) (envOk 1) 42 (worldOf ⟨false, true⟩)).err
        = none ∧
      (CreateMainVppInterface (eth0 true false false) (envOk 1) 42
        (worldOf ⟨false, true⟩)).d.spec.SwIfIndex = 1 ∧
      (CreateMainVppInterface (eth0 true false false) (envOk 1) 42
        (worldOf ⟨false, true⟩)).w.calls
        = (worldOf ⟨false, true⟩).calls ++
          [Call.moveInterfaceToNS (eth0 true false false).spec.InterfaceName 42,
            Call.CreateAfPacket,
            Call.TagMainInterface 1 (eth0 true false false).spec.InterfaceName] ∧
      tagCalls (CreateMainVppInterface (eth0 true false false) (envOk 1) 42
        (worldOf ⟨false, true⟩)).w.calls = tagCalls (worldOf ⟨false, true⟩).calls + 1 :=
  C8_success_records_and_tags (eth0 true false false) (envOk 1) 42 (worldOf ⟨false, true⟩) 1
    rfl rfl rfl (Or.inr rfl)

end Uplink

namespace Config

theorem Result.andThen_err_left (r : Result) (f : State → Result) (h : r.err ≠ none) :
    (r.andThen f).err ≠ none := by
  unfold Result.andThen
  cases hr : r.err with
  | none => exact absurd hr h
  | some e => simp [hr]

theorem Result.andThen_err_right (r : Result) (f : State → Result)
    (h : ∀ s, (f s).err ≠ none) : (r.andThen f).err ≠ none := by
  unfold Result.andThen
  cases hr : r.err with
  | none => exact h r.s
  | some e => simp [hr]

theorem Result.andThen_ok (r : Result) (f : State → Result) (h : (r.andThen f).err = none) :
    r.err = none ∧ (f r.s).err = none := by
  unfold Result.andThen at h
  cases hr : r.err with
  | none => simp only [hr] at h; exact ⟨rfl, h⟩
  | some e => simp [hr] at h

theorem Result.andThen_of_ok (r : Result) (f : State → Result) (h : r.err = none) :
    r.andThen f = f r.s := by
  unfold Result.andThen
  simp [h]

theorem Result.andThen_of_err (r : Result) (f : State → Result) (e : LoadError)
    (h : r.err = some e) : r.andThen f = r := by
  unfold Result.andThen
  simp [h]

theorem loadQueueCount_err (envVar : String) (assign : State → Int → State) (env : Environ)
    (h : badQueueCount (Getenv env envVar) = true) (s : State) :
    (loadQueueCount envVar assign env s).err ≠ none := by
  simp only [badQueueCount, Bool.and_eq_true, Bool.or_eq_true, decide_eq_true_eq] at h
  obtain ⟨h1, h2⟩ := h
  simp [loadQueueCount, h1, h2]

theorem loadToggle_err (envVar : String) (assign : State → Bool → State) (env : Environ)
    (h : badToggle (Getenv env envVar) = true) (s : State) :
    (loadToggle envVar assign env s).err ≠ none := by
  simp only [badToggle, Bool.and_eq_true, decide_eq_true_eq, Option.isNone_iff_eq_none] at h
  obtain ⟨h1, h2⟩ := h
  simp [loadToggle, h1, h2]

theorem loadNumber_err (envVar : String) (bitSize : Nat) (assign : State → Int → State)
    (env : Environ) (h : badNumber bitSize (Getenv env envVar) = true) (s : State) :
    (loadNumber envVar bitSize assign env s).err ≠ none := by
  simp only [badNumber, Bool.and_eq_true, decide_eq_true_eq] at h
  obtain ⟨h1, h2⟩ := h
  simp [loadNumber, h1, h2]

theorem loadTapQueueSize_err (env : Environ)
    (h : badRingSize (Getenv env TapQueueSizeEnvVar) = true) (s : State) :
    (loadTapQueueSize env s).err ≠ none := by
  simp only [badRingSize, Bool.and_eq_true, decide_eq_true_eq] at h
  obtain ⟨h1, h2⟩ := h
  unfold loadTapQueueSize
  rcases hsp : Split (Getenv env TapQueueSizeEnvVar) ',' with _ | ⟨a, _ | ⟨b, _ | ⟨c, t⟩⟩⟩
  · simp [h1, hsp]
  · simp only [hsp, decide_eq_true_eq] at h2
    simp [h1, h2, hsp]
  · simp only [hsp, Bool.or_eq_true, decide_eq_true_eq] at h2
    by_cases ha : (ParseInt a 32).2 = none
    · have hb : (ParseInt b 32).2 ≠ none := by
        rcases h2 with h2 | h2
        · exact absurd ha h2
        · exact h2
      simp [h1, ha, hb, hsp]
    · simp [h1, ha, hsp]
  · simp [h1, hsp]

theorem loadServiceCIDRs_err (lib : Lib) (l : List String)
    (h : l.any (fun p => !(ParseCIDR lib p).toBool) = true) (s : State) :
    (loadServiceCIDRs lib l s).err ≠ none := by
  induction l generalizing s with
  | nil => simp at h
  | cons p rest ih =>
    unfold loadServiceCIDRs
    cases hp : ParseCIDR lib p with
    | error e => simp
    | ok n =>
      simp only [List.any_cons, hp, Except.toBool, Bool.not_true, Bool.false_or] at h
      exact ih h _

theorem loadServiceCIDRs_ok (lib : Lib) (l : List String) (s : State)
    (h : (loadServiceCIDRs lib l s).err = none) :
    ∀ p ∈ l, ∃ n, ParseCIDR lib p = Except.ok n := by
  induction l generalizing s with
  | nil => simp
  | cons p rest ih =>
    unfold loadServiceCIDRs at h
    cases hp : ParseCIDR lib p with
    | error e => simp [hp] at h
    | ok n =>
      simp only [hp] at h
      intro q hq
      rcases List.mem_cons.mp hq with rfl | hq
      · exact ⟨n, hp⟩
      · exact ih _ h q hq

theorem loadServiceNets_err (lib : Lib) (env : Environ)
    (h : badServiceList lib (Getenv env ServicePrefixEnvVar) = true) (s : State) :
    (loadServiceNets lib env s).err ≠ none :=
  loadServiceCIDRs_err lib _ h _

theorem Split_empty (sep : Char) : Split "" sep = [""] := rfl

theorem ParseCIDR_empty (lib : Lib) :
    ParseCIDR lib "" = Except.error "invalid CIDR address: " := rfl

theorem Result.andThen_ok_iff (r : Result) (f : State → Result) :
    (r.andThen f).err = none ↔ r.err = none ∧ (f r.s).err = none := by
  constructor
  · exact Result.andThen_ok r f
  · rintro ⟨h1, h2⟩
    rw [Result.andThen_of_ok r f h1]
    exact h2

theorem Result.andThen_stable (P : State → Prop) (r : Result) (f : State → Result)
    (hf : ∀ s, P s → P (f s).s) (hr : P r.s) : P (r.andThen f).s := by
  unfold Result.andThen
  cases hr0 : r.err with
  | none => exact hf _ hr
  | some e => exact hr

theorem Result.andThen_inv (P Q : State → Prop) (r : Result) (f : State → Result)
    (hf : ∀ s, P s → (f s).err = none → Q (f s).s) (hr : r.err = none → P r.s) :
    (r.andThen f).err = none → Q (r.andThen f).s := by
  intro h
  obtain ⟨h1, h2⟩ := Result.andThen_ok r f h
  rw [Result.andThen_of_ok r f h1]
  exact hf _ (hr h1) h2

theorem SameCore.ipsec {s s1 : State} (h : SameCore s s1) : s1.EnableIPSec = s.EnableIPSec :=
  h.2.2.1

theorem SameCore.bgp {s s1 : State} (h : SameCore s s1) : s1.BgpLogLevel = s.BgpLogLevel :=
  h.1

theorem SameCore.level {s s1 : State} (h : SameCore s s1) : s1.LogLevel = s.LogLevel :=
  h.2.1

theorem SameCore.logged_eq {s s1 : State} (h : SameCore s s1) : s1.logged = s.logged :=
  h.2.2.2

theorem sameCore_markSupported (s : State) (k : String) : SameCore s (markSupported s k) :=
  ⟨rfl, rfl, rfl, rfl⟩

theorem loadNodeName_core (env : Environ) (s : State) : SameCore s (loadNodeName env s).s :=
  ⟨rfl, rfl, rfl, rfl⟩

theorem loadQueueCount_core (envVar : String) (assign : State → Int → State) (env : Environ)
    (ha : ∀ s v, SameCore s (assign s v)) (s : State) :
    SameCore s (loadQueueCount envVar assign env s).s := by
  unfold loadQueueCount
  simp only
  split
  · split
    · exact sameCore_markSupported s envVar
    · exact ha (markSupported s envVar) _
  · exact sameCore_markSupported s envVar

theorem loadToggle_levels (envVar : String) (assign : State → Bool → State) (env : Environ)
    (ha : ∀ s v, (assign s v).BgpLogLevel = s.BgpLogLevel ∧ (assign s v).LogLevel = s.LogLevel ∧
      (assign s v).logged = s.logged) (s : State) :
    (loadToggle envVar assign env s).s.BgpLogLevel = s.BgpLogLevel ∧
      (loadToggle envVar assign env s).s.LogLevel = s.LogLevel ∧
      (loadToggle envVar assign env s).s.logged = s.logged := by
  unfold loadToggle
  simp only
  split
  · split
    · exact ⟨rfl, rfl, rfl⟩
    · exact ha (markSupported s envVar) _
  · exact ⟨rfl, rfl, rfl⟩

theorem loadToggle_core (envVar : String) (assign : State → Bool → State) (env : Environ)
    (ha : ∀ s v, SameCore s (assign s v)) (s : State) :
    SameCore s (loadToggle envVar assign env s).s := by
  unfold loadToggle
  simp only
  split
  · split
    · exact sameCore_markSupported s envVar
    · exact ha (markSupported s envVar) _
  · exact sameCore_markSupported s envVar

theorem loadNumber_core (envVar : String) (bitSize : Nat) (assign : State → Int → State)
    (env : Environ) (ha : ∀ s v, SameCore s (assign s v)) (s : State) :
    SameCore s (loadNumber envVar bitSize assign env s).s := by
  unfold loadNumber
  simp only
  split
  · split
    · exact sameCore_markSupported s envVar
    · exact ha (markSupported s envVar) _
  · exact sameCore_markSupported s envVar

theorem loadTapQueueSize_core (env : Environ) (s : State) :
    SameCore s (loadTapQueueSize env s).s := by
  unfold loadTapQueueSize
  simp only
  split
  · split <;> (repeat' split) <;> exact ⟨rfl, rfl, rfl, rfl⟩
  · exact ⟨rfl, rfl, rfl, rfl⟩

theorem loadIkev2Psk_core (env : Environ) (s : State) :
    SameCore s (loadIkev2Psk env s).s := by
  unfold loadIkev2Psk
  simp only
  split <;> exact ⟨rfl, rfl, rfl, rfl⟩

theorem loadServiceCIDRs_core (lib : Lib) (l : List String) (s : State) :
    SameCore s (loadServiceCIDRs lib l s).s := by
  induction l generalizing s with
  | nil => exact ⟨rfl, rfl, rfl, rfl⟩
  | cons p rest ih =>
    unfold loadServiceCIDRs
    cases hp : ParseCIDR lib p with
    | error e => exact ⟨rfl, rfl, rfl, rfl⟩
    | ok n => exact ih _

theorem loadServiceNets_core (lib : Lib) (env : Environ) (s : State) :
    SameCore s (loadServiceNets lib env s).s :=
  loadServiceCIDRs_core lib _ _

theorem loadTapRxMode_core (env : Environ) (s : State) :
    SameCore s (loadTapRxMode env s).s :=
  ⟨rfl, rfl, rfl, rfl⟩

theorem warnUnsupported_frame (env : Environ) (s : State) :
    (warnUnsupported env s).BgpLogLevel = s.BgpLogLevel ∧
      (warnUnsupported env s).LogLevel = s.LogLevel ∧
      (warnUnsupported env s).TapRxMode = s.TapRxMode ∧
      ∃ post, (warnUnsupported env s).logged = s.logged ++ post := by
  induction env generalizing s with
  | nil => exact ⟨rfl, rfl, rfl, [], by simp [warnUnsupported]⟩
  | cons e rest ih =>
    obtain ⟨name, v⟩ := e
    unfold warnUnsupported
    split
    · obtain ⟨h1, h2, h3, post, h4⟩ := ih
        { s with logged := s.logged ++
          [LogRecord.Warnf ("Environment variable " ++ name ++ " is not supported")] }
      exact ⟨h1, h2, h3,
        LogRecord.Warnf ("Environment variable " ++ name ++ " is not supported") :: post,
        by rw [h4]; simp⟩
    · exact ih s

theorem loadBgpLogLevel_frame (lib : Lib) (env : Environ) (s : State) :
    (loadBgpLogLevel lib env s).err = none ∧
      (loadBgpLogLevel lib env s).s.LogLevel = s.LogLevel ∧
      (loadBgpLogLevel lib env s).s.EnableIPSec = s.EnableIPSec ∧
      (∃ post, (loadBgpLogLevel lib env s).s.logged = s.logged ++ post) ∧
      (Getenv env BgpLogLevelEnvVar ≠ "" → ParseLevel lib (Getenv env BgpLogLevelEnvVar) = none →
        (loadBgpLogLevel lib env s).s.BgpLogLevel = s.BgpLogLevel ∧
          (loadBgpLogLevel lib env s).s.logged = s.logged ++
            [LogRecord.Error ("Failed to parse BGP loglevel: %s, defaulting to info" ++
              Getenv env BgpLogLevelEnvVar)]) := by
  unfold loadBgpLogLevel
  by_cases hc : Getenv env BgpLogLevelEnvVar = ""
  · simp [hc, markSupported]
  · cases hp : ParseLevel lib (Getenv env BgpLogLevelEnvVar) <;> simp [hc, hp, markSupported]

theorem loadLogLevel_frame (lib : Lib) (env : Environ) (s : State) :
    (loadLogLevel lib env s).err = none ∧
      (loadLogLevel lib env s).s.BgpLogLevel = s.BgpLogLevel ∧
      (loadLogLevel lib env s).s.EnableIPSec = s.EnableIPSec ∧
      (∃ post, (loadLogLevel lib env s).s.logged = s.logged ++ post) ∧
      (Getenv env LogLevelEnvVar ≠ "" → ParseLevel lib (Getenv env LogLevelEnvVar) = none →
        (loadLogLevel lib env s).s.LogLevel = s.LogLevel ∧
          (loadLogLevel lib env s).s.logged = s.logged ++
            [LogRecord.Error ("Failed to parse loglevel: %s, defaulting to info" ++
              Getenv env LogLevelEnvVar)]) := by
  unfold loadLogLevel
  by_cases hc : Getenv env LogLevelEnvVar = ""
  · simp [hc, markSupported]
  · cases hp : ParseLevel lib (Getenv env LogLevelEnvVar) <;> simp [hc, hp, markSupported]

theorem loadQueueCount_ok_iff (envVar : String) (assign : State → Int → State) (env : Environ)
    (s : State) :
    (loadQueueCount envVar assign env s).err = none ↔ badQueueCount (Getenv env envVar) = false := by
  constructor
  · intro h
    by_contra hb
    exact loadQueueCount_err envVar assign env (by simpa using hb) s h
  · intro h
    unfold badQueueCount at h
    unfold loadQueueCount
    by_cases hc : Getenv env envVar = ""
    · simp [hc]
    · simp only [hc, ne_eq, not_false_eq_true, decide_True, Bool.true_and, Bool.or_eq_false_iff,
        decide_eq_false_iff_not, not_not, not_le] at h
      have hle : ¬ (ParseInt (Getenv env envVar) 16).1 ≤ 0 := not_le.mpr h.2
      simp [hc, h.1, hle]

theorem loadToggle_ok_iff (envVar : String) (assign : State → Bool → State) (env : Environ)
    (s : State) :
    (loadToggle envVar assign env s).err = none ↔ badToggle (Getenv env envVar) = false := by
  unfold loadToggle badToggle
  by_cases hc : Getenv env envVar = ""
  · simp [hc]
  · cases hp : ParseBool (Getenv env envVar) <;> simp [hc, hp]

theorem loadNumber_ok_iff (envVar : String) (bitSize : Nat) (assign : State → Int → State)
    (env : Environ) (s : State) :
    (loadNumber envVar bitSize assign env s).err = none
      ↔ badNumber bitSize (Getenv env envVar) = false := by
  unfold loadNumber badNumber
  by_cases hc : Getenv env envVar = ""
  · simp [hc]
  · by_cases hb : (ParseInt (Getenv env envVar) bitSize).2 = none <;> simp [hc, hb]

theorem loadTapQueueSize_ok_iff (env : Environ) (s : State) :
    (loadTapQueueSize env s).err = none ↔ badRingSize (Getenv env TapQueueSizeEnvVar) = false := by
  constructor
  · intro h
    by_contra hb
    exact loadTapQueueSize_err env (by simpa using hb) s h
  · intro h
    unfold badRingSize at h
    unfold loadTapQueueSize
    by_cases hc : Getenv env TapQueueSizeEnvVar = ""
    · simp [hc]
    · rcases hsp : Split (Getenv env TapQueueSizeEnvVar) ',' with _ | ⟨a, _ | ⟨b, _ | ⟨c, t⟩⟩⟩
      · simp [hc, hsp] at h
      · simp only [hsp] at h
        simp [hc] at h
        simp [hc, hsp, h]
      · simp only [hsp] at h
        simp [hc] at h
        simp [hc, hsp, h.1, h.2]
      · simp [hc, hsp] at h

theorem loadServiceNets_ok_iff (lib : Lib) (env : Environ) (s : State) :
    (loadServiceNets lib env s).err = none
      ↔ badServiceList lib (Getenv env ServicePrefixEnvVar) = false := by
  constructor
  · intro h
    by_contra hb
    exact loadServiceNets_err lib env (by simpa using hb) s h
  · intro h
    have hgen : ∀ (l : List String) (s0 : State),
        l.any (fun p => !(ParseCIDR lib p).toBool) = false →
        (loadServiceCIDRs lib l s0).err = none := by
      intro l
      induction l with
      | nil => intro s0 _; rfl
      | cons p rest ih =>
        intro s0 hl
        unfold loadServiceCIDRs
        cases hp : ParseCIDR lib p with
        | error e => simp [hp, Except.toBool] at hl
        | ok n =>
          simp only [List.any_cons, hp, Except.toBool, Bool.not_true, Bool.false_or] at hl
          exact ih _ hl
    exact hgen _ _ h

theorem loadIkev2Psk_ok_iff (env : Environ) (s : State) :
    (loadIkev2Psk env s).err = none
      ↔ ¬ (s.EnableIPSec = true ∧ Getenv env IPSecIkev2PskEnvVar = "") := by
  unfold loadIkev2Psk
  by_cases h : s.EnableIPSec = true ∧ Getenv env IPSecIkev2PskEnvVar = ""
  · simp [h, markSupported]
  · simp only [markSupported]
    rw [if_neg h]
    simp [h]

theorem loadToggle_ipsec (env : Environ) (s : State)
    (h : (loadToggle EnableIPSecEnvVar (fun s v => { s with EnableIPSec := v }) env s).err = none) :
    (loadToggle EnableIPSecEnvVar (fun s v => { s with EnableIPSec := v }) env s).s.EnableIPSec
      = ipsecEnabled env s := by
  unfold loadToggle at h ⊢
  unfold ipsecEnabled
  by_cases hc : Getenv env EnableIPSecEnvVar = ""
  · simp [hc, markSupported]
  · cases hp : ParseBool (Getenv env EnableIPSecEnvVar) with
    | none => simp [hc, hp] at h
    | some b => simp [hc, hp]

theorem Result.andThen_keep (X : Bool) (r : Result) (f : State → Result)
    (hf : ∀ s, (f s).s.EnableIPSec = s.EnableIPSec)
    (hr : r.err = none → r.s.EnableIPSec = X) :
    (r.andThen f).err = none → (r.andThen f).s.EnableIPSec = X :=
  Result.andThen_inv (fun st => st.EnableIPSec = X) (fun st => st.EnableIPSec = X) r f
    (fun st h _ => (hf st).trans h) hr

theorem Result.andThen_ipsec (env : Environ) (s : State) (r : Result)
    (hr : r.err = none → r.s.EnableIPSec = s.EnableIPSec) :
    (r.andThen (loadToggle EnableIPSecEnvVar (fun s v => { s with EnableIPSec := v }) env)).err
        = none →
      (r.andThen (loadToggle EnableIPSecEnvVar
        (fun s v => { s with EnableIPSec := v }) env)).s.EnableIPSec = ipsecEnabled env s := by
  refine Result.andThen_inv (fun st => st.EnableIPSec = s.EnableIPSec)
    (fun st => st.EnableIPSec = ipsecEnabled env s) r _ ?_ hr
  intro st h hok
  have h0 : st.EnableIPSec = s.EnableIPSec := h
  show (loadToggle EnableIPSecEnvVar (fun s v => { s with EnableIPSec := v }) env st).s.EnableIPSec
    = ipsecEnabled env s
  rw [loadToggle_ipsec env st hok]
  unfold ipsecEnabled
  rw [h0]

theorem Result.andThen_psk (env : Environ) (X : Bool) (r : Result)
    (hr : r.err = none → r.s.EnableIPSec = X) :
    (r.andThen (loadIkev2Psk env)).err = none
      ↔ r.err = none ∧ ¬ (X = true ∧ Getenv env IPSecIkev2PskEnvVar = "") := by
  rw [Result.andThen_ok_iff, loadIkev2Psk_ok_iff]
  constructor
  · rintro ⟨h1, h2⟩
    exact ⟨h1, by rw [← hr h1]; exact h2⟩
  · rintro ⟨h1, h2⟩
    exact ⟨h1, by rw [hr h1]; exact h2⟩

theorem loadBeforeServiceNets_ok_iff (lib : Lib) (env : Environ) (s : State) :
    (loadBeforeServiceNets lib env s).err = none ↔
      (badQueueCount (Getenv env TapNumRxQueuesEnvVar) = false ∧
        badQueueCount (Getenv env TapNumTxQueuesEnvVar) = false ∧
        badToggle (Getenv env TapGSOEnvVar) = false ∧
        badToggle (Getenv env EnableIPSecEnvVar) = false ∧
        badToggle (Getenv env CrossIpsecTunnelsEnvVar) = false ∧
        badToggle (Getenv env EnableServicesEnvVar) = false ∧
        badToggle (Getenv env EnablePoliciesEnvVar) = false ∧
        badNumber 8 (Getenv env IPSecExtraAddressesEnvVar) = false ∧
        badNumber 32 (Getenv env TapMtuEnvVar) = false ∧
        badRingSize (Getenv env TapQueueSizeEnvVar) = false) ∧
      ¬ (ipsecEnabled env s = true ∧ Getenv env IPSecIkev2PskEnvVar = "") := by
  unfold loadBeforeServiceNets
  refine Iff.trans (Result.andThen_psk env (ipsecEnabled env s) _ ?_) ?_
  · refine Result.andThen_keep _ _ _ ?_ ?_
    exact fun st => SameCore.ipsec (loadTapQueueSize_core env st)
    refine Result.andThen_keep _ _ _ ?_ ?_
    exact fun st => SameCore.ipsec (loadNumber_core _ _ _ env (by intro _ _; exact ⟨rfl, rfl, rfl, rfl⟩) st)
    refine Result.andThen_keep _ _ _ ?_ ?_
    exact fun st => SameCore.ipsec (loadNumber_core _ _ _ env (by intro _ _; exact ⟨rfl, rfl, rfl, rfl⟩) st)
    refine Result.andThen_keep _ _ _ ?_ ?_
    exact fun st => SameCore.ipsec (loadToggle_core _ _ env (by intro _ _; exact ⟨rfl, rfl, rfl, rfl⟩) st)
    refine Result.andThen_keep _ _ _ ?_ ?_
    exact fun st => SameCore.ipsec (loadToggle_core _ _ env (by intro _ _; exact ⟨rfl, rfl, rfl, rfl⟩) st)
    refine Result.andThen_keep _ _ _ ?_ ?_
    exact fun st => SameCore.ipsec (loadToggle_core _ _ env (by intro _ _; exact ⟨rfl, rfl, rfl, rfl⟩) st)
    apply Result.andThen_ipsec env s
    refine Result.andThen_keep _ _ _ ?_ ?_
    exact fun st => SameCore.ipsec (loadToggle_core _ _ env (by intro _ _; exact ⟨rfl, rfl, rfl, rfl⟩) st)
    refine Result.andThen_keep _ _ _ ?_ ?_
    exact fun st => SameCore.ipsec (loadQueueCount_core _ _ env (by intro _ _; exact ⟨rfl, rfl, rfl, rfl⟩) st)
    refine Result.andThen_keep _ _ _ ?_ ?_
    exact fun st => SameCore.ipsec (loadQueueCount_core _ _ env (by intro _ _; exact ⟨rfl, rfl, rfl, rfl⟩) st)
    refine Result.andThen_keep _ _ _ ?_ ?_
    exact fun st => SameCore.ipsec (loadNodeName_core env st)
    refine Result.andThen_keep _ _ _ ?_ ?_
    exact fun st => (loadLogLevel_frame lib env st).2.2.1
    refine Result.andThen_keep _ _ _ ?_ ?_
    exact fun st => (loadBgpLogLevel_frame lib env st).2.2.1
    intro _
    rfl
  · simp only [Result.andThen_ok_iff, loadQueueCount_ok_iff, loadToggle_ok_iff,
      loadNumber_ok_iff, loadTapQueueSize_ok_iff, (loadBgpLogLevel_frame lib env _).1,
      (loadLogLevel_frame lib env _).1, loadNodeName, true_and, and_assoc]

theorem SameCore.keepBgp {s s1 : State} (h : SameCore s s1) :
    s1.BgpLogLevel = s.BgpLogLevel ∧ ∃ post, s1.logged = s.logged ++ post :=
  ⟨h.1, [], by simp [h.2.2.2]⟩

theorem SameCore.keepLevel {s s1 : State} (h : SameCore s s1) :
    s1.LogLevel = s.LogLevel ∧ ∃ post, s1.logged = s.logged ++ post :=
  ⟨h.2.1, [], by simp [h.2.2.2]⟩

theorem keepBgp_of_levels {s s1 : State}
    (h : s1.BgpLogLevel = s.BgpLogLevel ∧ s1.LogLevel = s.LogLevel ∧ s1.logged = s.logged) :
    s1.BgpLogLevel = s.BgpLogLevel ∧ ∃ post, s1.logged = s.logged ++ post :=
  ⟨h.1, [], by simp [h.2.2]⟩

theorem keepLevel_of_levels {s s1 : State}
    (h : s1.BgpLogLevel = s.BgpLogLevel ∧ s1.LogLevel = s.LogLevel ∧ s1.logged = s.logged) :
    s1.LogLevel = s.LogLevel ∧ ∃ post, s1.logged = s.logged ++ post :=
  ⟨h.2.1, [], by simp [h.2.2]⟩

theorem Result.andThen_keptBgp (v : Level) (l : List LogRecord) (r : Result)
    (f : State → Result)
    (hf : ∀ s, (f s).s.BgpLogLevel = s.BgpLogLevel ∧ ∃ post, (f s).s.logged = s.logged ++ post)
    (hr : r.s.BgpLogLevel = v ∧ ∃ post, r.s.logged = l ++ post) :
    (r.andThen f).s.BgpLogLevel = v ∧ ∃ post, (r.andThen f).s.logged = l ++ post := by
  refine Result.andThen_stable
    (fun st => st.BgpLogLevel = v ∧ ∃ post, st.logged = l ++ post) r f ?_ hr
  rintro st ⟨h1, post, h2⟩
  obtain ⟨g1, post1, g2⟩ := hf st
  exact ⟨g1.trans h1, post ++ post1, by rw [g2, h2, List.append_assoc]⟩

theorem Result.andThen_keptLevel (v : Level) (l : List LogRecord) (r : Result)
    (f : State → Result)
    (hf : ∀ s, (f s).s.LogLevel = s.LogLevel ∧ ∃ post, (f s).s.logged = s.logged ++ post)
    (hr : r.s.LogLevel = v ∧ ∃ post, r.s.logged = l ++ post) :
    (r.andThen f).s.LogLevel = v ∧ ∃ post, (r.andThen f).s.logged = l ++ post := by
  refine Result.andThen_stable
    (fun st => st.LogLevel = v ∧ ∃ post, st.logged = l ++ post) r f ?_ hr
  rintro st ⟨h1, post, h2⟩
  obtain ⟨g1, post1, g2⟩ := hf st
  exact ⟨g1.trans h1, post ++ post1, by rw [g2, h2, List.append_assoc]⟩

theorem LoadConfig_bgp_kept (lib : Lib) (env : Environ) (s : State)
    (hne : Getenv env BgpLogLevelEnvVar ≠ "")
    (hbad : ParseLevel lib (Getenv env BgpLogLevelEnvVar) = none) :
    (LoadConfig lib env s).s.BgpLogLevel = s.BgpLogLevel ∧
      ∃ post, (LoadConfig lib env s).s.logged = (s.logged ++
        [LogRecord.Error ("Failed to parse BGP loglevel: %s, defaulting to info" ++
          Getenv env BgpLogLevelEnvVar)]) ++ post := by
  unfold LoadConfig loadBeforeServiceNets
  refine Result.andThen_keptBgp _ _ _ _ ?_ ?_
  · exact fun st => ⟨(warnUnsupported_frame env st).1, (warnUnsupported_frame env st).2.2.2⟩
  refine Result.andThen_keptBgp _ _ _ _ ?_ ?_
  · exact fun st => SameCore.keepBgp (loadTapRxMode_core env st)
  refine Result.andThen_keptBgp _ _ _ _ ?_ ?_
  · exact fun st => SameCore.keepBgp (loadServiceNets_core lib env st)
  refine Result.andThen_keptBgp _ _ _ _ ?_ ?_
  · exact fun st => SameCore.keepBgp (loadIkev2Psk_core env st)
  refine Result.andThen_keptBgp _ _ _ _ ?_ ?_
  · exact fun st => SameCore.keepBgp (loadTapQueueSize_core env st)
  refine Result.andThen_keptBgp _ _ _ _ ?_ ?_
  · exact fun st => SameCore.keepBgp (loadNumber_core _ _ _ env (by intro _ _; exact ⟨rfl, rfl, rfl, rfl⟩) st)
  refine Result.andThen_keptBgp _ _ _ _ ?_ ?_
  · exact fun st => SameCore.keepBgp (loadNumber_core _ _ _ env (by intro _ _; exact ⟨rfl, rfl, rfl, rfl⟩) st)
  refine Result.andThen_keptBgp _ _ _ _ ?_ ?_
  · exact fun st => SameCore.keepBgp (loadToggle_core _ _ env (by intro _ _; exact ⟨rfl, rfl, rfl, rfl⟩) st)
  refine Result.andThen_keptBgp _ _ _ _ ?_ ?_
  · exact fun st => SameCore.keepBgp (loadToggle_core _ _ env (by intro _ _; exact ⟨rfl, rfl, rfl, rfl⟩) st)
  refine Result.andThen_keptBgp _ _ _ _ ?_ ?_
  · exact fun st => SameCore.keepBgp (loadToggle_core _ _ env (by intro _ _; exact ⟨rfl, rfl, rfl, rfl⟩) st)
  refine Result.andThen_keptBgp _ _ _ _ ?_ ?_
  · exact fun st => keepBgp_of_levels (loadToggle_levels _ _ env (by intro _ _; exact ⟨rfl, rfl, rfl⟩) st)
  refine Result.andThen_keptBgp _ _ _ _ ?_ ?_
  · exact fun st => SameCore.keepBgp (loadToggle_core _ _ env (by intro _ _; exact ⟨rfl, rfl, rfl, rfl⟩) st)
  refine Result.andThen_keptBgp _ _ _ _ ?_ ?_
  · exact fun st => SameCore.keepBgp (loadQueueCount_core _ _ env (by intro _ _; exact ⟨rfl, rfl, rfl, rfl⟩) st)
  refine Result.andThen_keptBgp _ _ _ _ ?_ ?_
  · exact fun st => SameCore.keepBgp (loadQueueCount_core _ _ env (by intro _ _; exact ⟨rfl, rfl, rfl, rfl⟩) st)
  refine Result.andThen_keptBgp _ _ _ _ ?_ ?_
  · exact fun st => SameCore.keepBgp (loadNodeName_core env st)
  refine Result.andThen_keptBgp _ _ _ _ ?_ ?_
  · exact fun st => ⟨(loadLogLevel_frame lib env st).2.1, (loadLogLevel_frame lib env st).2.2.2.1⟩
  rw [Result.andThen_of_ok _ _ rfl]
  obtain ⟨h1, h2⟩ := (loadBgpLogLevel_frame lib env { s with supportedEnvVars := [] }).2.2.2.2
    hne hbad
  exact ⟨h1, [], by rw [h2]; simp⟩

theorem LoadConfig_level_kept (lib : Lib) (env : Environ) (s : State)
    (hne : Getenv env LogLevelEnvVar ≠ "")
    (hbad : ParseLevel lib (Getenv env LogLevelEnvVar) = none) :
    (LoadConfig lib env s).s.LogLevel = s.LogLevel ∧
      ∃ pre post, (LoadConfig lib env s).s.logged = (s.logged ++ pre ++
        [LogRecord.Error ("Failed to parse loglevel: %s, defaulting to info" ++
          Getenv env LogLevelEnvVar)]) ++ post := by
  obtain ⟨_, hb1, _, ⟨pre, hb2⟩, _⟩ :=
    loadBgpLogLevel_frame lib env { s with supportedEnvVars := [] }
  refine (fun h => ⟨h.1, pre, h.2⟩ : _ ∧ (∃ post, _ = (s.logged ++ pre ++ _) ++ post) → _) ?_
  unfold LoadConfig loadBeforeServiceNets
  refine Result.andThen_keptLevel _ _ _ _ ?_ ?_
  · exact fun st => ⟨(warnUnsupported_frame env st).2.1, (warnUnsupported_frame env st).2.2.2⟩
  refine Result.andThen_keptLevel _ _ _ _ ?_ ?_
  · exact fun st => SameCore.keepLevel (loadTapRxMode_core env st)
  refine Result.andThen_keptLevel _ _ _ _ ?_ ?_
  · exact fun st => SameCore.keepLevel (loadServiceNets_core lib env st)
  refine Result.andThen_keptLevel _ _ _ _ ?_ ?_
  · exact fun st => SameCore.keepLevel (loadIkev2Psk_core env st)
  refine Result.andThen_keptLevel _ _ _ _ ?_ ?_
  · exact fun st => SameCore.keepLevel (loadTapQueueSize_core env st)
  refine Result.andThen_keptLevel _ _ _ _ ?_ ?_
  · exact fun st => SameCore.keepLevel (loadNumber_core _ _ _ env (by intro _ _; exact ⟨rfl, rfl, rfl, rfl⟩) st)
  refine Result.andThen_keptLevel _ _ _ _ ?_ ?_
  · exact fun st => SameCore.keepLevel (loadNumber_core _ _ _ env (by intro _ _; exact ⟨rfl, rfl, rfl, rfl⟩) st)
  refine Result.andThen_keptLevel _ _ _ _ ?_ ?_
  · exact fun st => SameCore.keepLevel (loadToggle_core _ _ env (by intro _ _; exact ⟨rfl, rfl, rfl, rfl⟩) st)
  refine Result.andThen_keptLevel _ _ _ _ ?_ ?_
  · exact fun st => SameCore.keepLevel (loadToggle_core _ _ env (by intro _ _; exact ⟨rfl, rfl, rfl, rfl⟩) st)
  refine Result.andThen_keptLevel _ _ _ _ ?_ ?_
  · exact fun st => SameCore.keepLevel (loadToggle_core _ _ env (by intro _ _; exact ⟨rfl, rfl, rfl, rfl⟩) st)
  refine Result.andThen_keptLevel _ _ _ _ ?_ ?_
  · exact fun st => keepLevel_of_levels (loadToggle_levels _ _ env (by intro _ _; exact ⟨rfl, rfl, rfl⟩) st)
  refine Result.andThen_keptLevel _ _ _ _ ?_ ?_
  · exact fun st => SameCore.keepLevel (loadToggle_core _ _ env (by intro _ _; exact ⟨rfl, rfl, rfl, rfl⟩) st)
  refine Result.andThen_keptLevel _ _ _ _ ?_ ?_
  · exact fun st => SameCore.keepLevel (loadQueueCount_core _ _ env (by intro _ _; exact ⟨rfl, rfl, rfl, rfl⟩) st)
  refine Result.andThen_keptLevel _ _ _ _ ?_ ?_
  · exact fun st => SameCore.keepLevel (loadQueueCount_core _ _ env (by intro _ _; exact ⟨rfl, rfl, rfl, rfl⟩) st)
  refine Result.andThen_keptLevel _ _ _ _ ?_ ?_
  · exact fun st => SameCore.keepLevel (loadNodeName_core env st)
  rw [Result.andThen_of_ok ⟨{ s with supportedEnvVars := [] }, none⟩ (loadBgpLogLevel lib env) rfl,
    Result.andThen_of_ok _ _ (loadBgpLogLevel_frame lib env _).1]
  obtain ⟨h1, h2⟩ := (loadLogLevel_frame lib env
    (loadBgpLogLevel lib env { s with supportedEnvVars := [] }).s).2.2.2.2 hne hbad
  exact ⟨h1.trans hb1, [], by rw [h2, hb2]; simp⟩

theorem LoadConfig_rxMode (lib : Lib) (env : Environ) (s : State)
    (h : (LoadConfig lib env s).err = none) :
    (LoadConfig lib env s).s.TapRxMode =
      if Getenv env TapRxModeEnvVar = "interrupt" then RxMode.Interrupt
      else if Getenv env TapRxModeEnvVar = "polling" then RxMode.Polling
      else if Getenv env TapRxModeEnvVar = "adaptive" then RxMode.Adaptative
      else defaultRxMode := by
  unfold LoadConfig at h ⊢
  have h1 := (Result.andThen_ok _ _ h).1
  have h2 := (Result.andThen_ok _ _ h1).1
  rw [Result.andThen_of_ok _ _ h1, Result.andThen_of_ok _ _ h2]
  show (warnUnsupported env _).TapRxMode = _
  rw [(warnUnsupported_frame env _).2.2.1]
  rfl

theorem LoadConfig_ok_iff (lib : Lib) (env : Environ) (s : State) :
    (LoadConfig lib env s).err = none ↔
      fatalVariableInvalid lib env = false ∧
        badServiceList lib (Getenv env ServicePrefixEnvVar) = false ∧
        ¬ (ipsecEnabled env s = true ∧ Getenv env IPSecIkev2PskEnvVar = "") := by
  unfold LoadConfig
  simp only [Result.andThen_ok_iff, loadBeforeServiceNets_ok_iff, loadServiceNets_ok_iff,
    loadTapRxMode, fatalVariableInvalid, Bool.or_eq_false_iff, Bool.and_eq_false_iff]
  tauto

/-- C9 (as stated, refuted): with `CALICO_BGP_LOGSEVERITYSCREEN`, `CALICO_LOG_LEVEL` and
`CALICOVPP_TAP_RX_MODE` all set to `bogus`, which is neither a log level nor a receive mode,
and a valid `SERVICE_PREFIX`, `LoadConfig` returns nil: the levels keep their value, the
receive mode is the default one, and the two level failures are only logged. -/
theorem C9_bad_levels_and_rx_mode_not_fatal :
    Getenv envBadLevels BgpLogLevelEnvVar = "bogus" ∧
      Getenv envBadLevels LogLevelEnvVar = "bogus" ∧
      Getenv envBadLevels TapRxModeEnvVar = "bogus" ∧
      ParseLevel asciiLib "bogus" = none ∧
      (LoadConfig asciiLib envBadLevels initialState).err = none ∧
      (LoadConfig asciiLib envBadLevels initialState).s.BgpLogLevel = Level.InfoLevel ∧
      (LoadConfig asciiLib envBadLevels initialState).s.LogLevel = Level.InfoLevel ∧
      (LoadConfig asciiLib envBadLevels initialState).s.TapRxMode = defaultRxMode ∧
      (LoadConfig asciiLib envBadLevels initialState).s.logged
        = [LogRecord.Error "Failed to parse BGP loglevel: %s, defaulting to infobogus",
            LogRecord.Error "Failed to parse loglevel: %s, defaulting to infobogus"] := by
  decide

/-- C9 (amended): when one of `CALICOVPP_TAP_RX_QUEUES`, `CALICOVPP_TAP_TX_QUEUES`,
`CALICOVPP_DEBUG_ENABLE_GSO`, `CALICOVPP_IPSEC_ENABLED`, `CALICOVPP_IPSEC_CROSS_TUNNELS`,
`CALICOVPP_DEBUG_ENABLE_NAT`, `CALICOVPP_DEBUG_ENABLE_POLICIES`,
`CALICOVPP_IPSEC_ASSUME_EXTRA_ADDRESSES`, `CALICOVPP_TAP_MTU`, `CALICOVPP_TAP_RING_SIZE` or
`SERVICE_PREFIX` holds a non-empty value that does not parse as a value of its kind,
`LoadConfig` returns a non-nil error, from every initial state. `LoadConfig` returns nil
exactly when none of these is invalid, every piece of `SERVICE_PREFIX` is a CIDR and the
IKEv2 key is present if IPsec is enabled: the values of `CALICO_BGP_LOGSEVERITYSCREEN`,
`CALICO_LOG_LEVEL` and `CALICOVPP_TAP_RX_MODE` play no part. An unparsable
`CALICO_BGP_LOGSEVERITYSCREEN`, respectively `CALICO_LOG_LEVEL`, leaves `BgpLogLevel`,
respectively `LogLevel`, at its value from before the call and adds its error record to the
log. When `LoadConfig` returns nil, `TapRxMode` is the mode named by `CALICOVPP_TAP_RX_MODE`
and `defaultRxMode` for any other value. The three blocks never return an error. -/
theorem C9_fatal_variable_rejected (lib : Lib) (env : Environ) (s : State) :
    (fatalVariableInvalid lib env = true → (LoadConfig lib env s).err ≠ none) ∧
    ((LoadConfig lib env s).err = none ↔
      fatalVariableInvalid lib env = false ∧
        badServiceList lib (Getenv env ServicePrefixEnvVar) = false ∧
        ¬ (ipsecEnabled env s = true ∧ Getenv env IPSecIkev2PskEnvVar = "")) ∧
    (Getenv env BgpLogLevelEnvVar ≠ "" → ParseLevel lib (Getenv env BgpLogLevelEnvVar) = none →
      (LoadConfig lib env s).s.BgpLogLevel = s.BgpLogLevel ∧
        ∃ post, (LoadConfig lib env s).s.logged = (s.logged ++
          [LogRecord.Error ("Failed to parse BGP loglevel: %s, defaulting to info" ++
            Getenv env BgpLogLevelEnvVar)]) ++ post) ∧
    (Getenv env LogLevelEnvVar ≠ "" → ParseLevel lib (Getenv env LogLevelEnvVar) = none →
      (LoadConfig lib env s).s.LogLevel = s.LogLevel ∧
        ∃ pre post, (LoadConfig lib env s).s.logged = (s.logged ++ pre ++
          [LogRecord.Error ("Failed to parse loglevel: %s, defaulting to info" ++
            Getenv env LogLevelEnvVar)]) ++ post) ∧
    ((LoadConfig lib env s).err = none →
      (LoadConfig lib env s).s.TapRxMode =
        if Getenv env TapRxModeEnvVar = "interrupt" then RxMode.Interrupt
        else if Getenv env TapRxModeEnvVar = "polling" then RxMode.Polling
        else if Getenv env TapRxModeEnvVar = "adaptive" then RxMode.Adaptative
        else defaultRxMode) ∧
    (∀ s0, (loadBgpLogLevel lib env s0).err = none ∧ (loadLogLevel lib env s0).err = none ∧
      (loadTapRxMode env s0).err = none) := by
  refine ⟨?_, LoadConfig_ok_iff lib env s, LoadConfig_bgp_kept lib env s,
    LoadConfig_level_kept lib env s, LoadConfig_rxMode lib env s,
    fun s0 => ⟨(loadBgpLogLevel_frame lib env s0).1, (loadLogLevel_frame lib env s0).1, rfl⟩⟩
  intro h
  simp only [fatalVariableInvalid, Bool.or_eq_true, Bool.and_eq_true] at h
  unfold LoadConfig loadBeforeServiceNets
  rcases h with (((((((((h | h) | h) | h) | h) | h) | h) | h) | h) | h) | h
  · repeat (first
      | exact Result.andThen_err_right _ _ (loadQueueCount_err _ _ _ h)
      | apply Result.andThen_err_left)
  · repeat (first
      | exact Result.andThen_err_right _ _ (loadQueueCount_err _ _ _ h)
      | apply Result.andThen_err_left)
  · repeat (first
      | exact Result.andThen_err_right _ _ (loadToggle_err _ _ _ h)
      | apply Result.andThen_err_left)
  · repeat (first
      | exact Result.andThen_err_right _ _ (loadToggle_err _ _ _ h)
      | apply Result.andThen_err_left)
  · repeat (first
      | exact Result.andThen_err_right _ _ (loadToggle_err _ _ _ h)
      | apply Result.andThen_err_left)
  · repeat (first
      | exact Result.andThen_err_right _ _ (loadToggle_err _ _ _ h)
      | apply Result.andThen_err_left)
  · repeat (first
      | exact Result.andThen_err_right _ _ (loadToggle_err _ _ _ h)
      | apply Result.andThen_err_left)
  · repeat (first
      | exact Result.andThen_err_right _ _ (loadNumber_err _ _ _ _ h)
      | apply Result.andThen_err_left)
  · repeat (first
      | exact Result.andThen_err_right _ _ (loadNumber_err _ _ _ _ h)
      | apply Result.andThen_err_left)
  · repeat (first
      | exact Result.andThen_err_right _ _ (loadTapQueueSize_err _ h)
      | apply Result.andThen_err_left)
  · repeat (first
      | exact Result.andThen_err_right _ _ (loadServiceNets_err _ _ h.2)
      | apply Result.andThen_err_left)

theorem C9_fatal_variable_rejected_witness :
    (LoadConfig asciiLib [(TapNumRxQueuesEnvVar, "0"), (ServicePrefixEnvVar, "10.96.0.0/12")]
        initialState).err ≠ none ∧
      ((LoadConfig asciiLib
          [(BgpLogLevelEnvVar, "verbose"), (TapRxModeEnvVar, "fast"),
            (ServicePrefixEnvVar, "10.96.0.0/12")]
          { initialState with BgpLogLevel := Level.DebugLevel }).s.BgpLogLevel
          = Level.DebugLevel ∧
        ∃ post, (LoadConfig asciiLib
            [(BgpLogLevelEnvVar, "verbose"), (TapRxModeEnvVar, "fast"),
              (ServicePrefixEnvVar, "10.96.0.0/12")]
            { initialState with BgpLogLevel := Level.DebugLevel }).s.logged
          = ([] ++ [LogRecord.Error ("Failed to parse BGP loglevel: %s, defaulting to info" ++
              "verbose")]) ++ post) ∧
      (LoadConfig asciiLib
          [(BgpLogLevelEnvVar, "verbose"), (TapRxModeEnvVar, "fast"),
            (ServicePrefixEnvVar, "10.96.0.0/12")]
          { initialState with BgpLogLevel := Level.DebugLevel }).s.TapRxMode = defaultRxMode :=
  ⟨(C9_fatal_variable_rejected asciiLib
      [(TapNumRxQueuesEnvVar, "0"), (ServicePrefixEnvVar, "10.96.0.0/12")] initialState).1
      (by decide),
    (C9_fatal_variable_rejected asciiLib
      [(BgpLogLevelEnvVar, "verbose"), (TapRxModeEnvVar, "fast"),
        (ServicePrefixEnvVar, "10.96.0.0/12")]
      { initialState with BgpLogLevel := Level.DebugLevel }).2.2.1 (by decide) (by decide),
    (C9_fatal_variable_rejected asciiLib
      [(BgpLogLevelEnvVar, "verbose"), (TapRxModeEnvVar, "fast"),
        (ServicePrefixEnvVar, "10.96.0.0/12")]
      { initialState with BgpLogLevel := Level.DebugLevel }).2.2.2.2.1 (by decide)⟩

/-- C10: when `SERVICE_PREFIX` is unset or empty (`os.Getenv` yields the empty string),
`LoadConfig` returns a non-nil error from every initial state, and when the blocks before it
return no error the error is the "invalid service prefix configuration" one for the empty
piece, caused by the CIDR parse error of the empty text. Conversely, when `LoadConfig` returns
nil, `SERVICE_PREFIX` is non-empty and every comma-separated piece of it parses as a CIDR. -/
theorem C10_empty_service_list_rejected (lib : Lib) (env : Environ) (s : State) :
    (env.lookup ServicePrefixEnvVar = none → Getenv env ServicePrefixEnvVar = "") ∧
    (Getenv env ServicePrefixEnvVar = "" →
      (LoadConfig lib env s).err ≠ none ∧
        ((loadBeforeServiceNets lib env s).err = none →
          (LoadConfig lib env s).err
            = some (LoadError.InvalidServicePrefix "" "invalid CIDR address: "))) ∧
    ((LoadConfig lib env s).err = none →
      Getenv env ServicePrefixEnvVar ≠ "" ∧
        ∀ p ∈ Split (Getenv env ServicePrefixEnvVar) ',', ∃ n, ParseCIDR lib p = Except.ok n) := by
  have hstep : Getenv env ServicePrefixEnvVar = "" →
      ∀ s0, (loadServiceNets lib env s0).err
        = some (LoadError.InvalidServicePrefix "" "invalid CIDR address: ") := by
    intro h s0
    simp [loadServiceNets, h, Split_empty, loadServiceCIDRs, ParseCIDR_empty]
  have hfail : Getenv env ServicePrefixEnvVar = "" → (LoadConfig lib env s).err ≠ none := by
    intro h
    unfold LoadConfig
    apply Result.andThen_err_left
    apply Result.andThen_err_left
    apply Result.andThen_err_right
    intro s0
    simp [hstep h s0]
  refine ⟨?_, ?_, ?_⟩
  · intro h
    simp [Getenv, h]
  · intro h
    refine ⟨hfail h, ?_⟩
    intro hpre
    unfold LoadConfig
    rw [Result.andThen_of_ok _ _ hpre]
    rw [Result.andThen_of_err _ _ _ (hstep h _), Result.andThen_of_err _ _ _ (hstep h _)]
    exact hstep h _
  · intro hok
    refine ⟨fun h => hfail h hok, ?_⟩
    unfold LoadConfig at hok
    have h1 := (Result.andThen_ok _ _ hok).1
    have h2 := (Result.andThen_ok _ _ h1).1
    have h3 := (Result.andThen_ok _ _ h2).2
    exact loadServiceCIDRs_ok lib _ _ h3

theorem C10_empty_service_list_rejected_witness :
    (LoadConfig asciiLib [(TapNumRxQueuesEnvVar, "4")] initialState).err
      = some (LoadError.InvalidServicePrefix "" "invalid CIDR address: ") :=
  ((C10_empty_service_list_rejected asciiLib [(TapNumRxQueuesEnvVar, "4")] initialState).2.1
    (by decide)).2 (by decide)

end Config
